import Mathlib

/-! Version resolution engine of the dynatrace-operator

Shallow embedding of `pkg/controllers/dynakube/version`: the `StatusUpdater`
contract, the two concrete updaters of `activegate.go` and `codemodules.go`,
and the reconcile engine (`determineSource`, `run`, `getTagFromImageID`);
of the ActiveGate API client (`pkg/clients/dynatrace/activegate`), of the
OTel collector reconcilers (`pkg/controllers/dynakube/otelc`) and of the e2e
helper `setImageRefFromEnvs`.

The file `updater.go`, which holds the engine, and the packages `status`,
`dynakube`, `k8sconditions` are not part of the sources at hand; what is
taken from the specification instead is marked `Modelled from the spec:`.
-/

namespace Version

/-! ## Data model -/

/-- Modelled from the spec: the enum `status.VersionSource` (package `status`
is missing). `Unset` is the zero value of the Go string type, the other three
are the sources the spec names in its data model. -/
inductive VersionSource where
  | Unset
  | TenantRegistry
  | CustomImage
  | CustomVersion
  deriving DecidableEq

abbrev TenantRegistryVersionSource : VersionSource := VersionSource.TenantRegistry
abbrev CustomImageVersionSource : VersionSource := VersionSource.CustomImage
abbrev CustomVersionVersionSource : VersionSource := VersionSource.CustomVersion

/-- Modelled from the spec: the conversion `string(source)` of a
`status.VersionSource`; the constants are declared in the missing package
`status`. Only that the three named sources have non-empty, distinct string
forms is used below. -/
def VersionSource.toStr : VersionSource → String
  | VersionSource.Unset => ""
  | VersionSource.TenantRegistry => "tenant-registry"
  | VersionSource.CustomImage => "custom-image"
  | VersionSource.CustomVersion => "custom-version"

/-- Modelled from the spec: the record `status.VersionStatus` with the four
fields of the spec's data model. A timestamp is a natural number of ticks,
`none` is the nil pointer of the zero value. -/
structure VersionStatus where
  Source : VersionSource
  ImageID : String
  Version : String
  LastProbeTimestamp : Option Nat
  deriving DecidableEq

/-- The zero value `status.VersionStatus{}`. -/
def emptyVersionStatus : VersionStatus :=
  { Source := VersionSource.Unset, ImageID := "", Version := "", LastProbeTimestamp := none }

/-- Go errors are represented by their message. -/
abbrev Error := String

/-! ## The `StatusUpdater` contract

The capability set every concrete updater in `activegate.go` and
`codemodules.go` implements. The receiver's mutable memory (the DynaKube
behind `updater.dk`, or the mock's target) is the explicit state `σ`.
`Target()` returns a pointer into that memory: reading through it is
`Target`, writing through it is `setTarget`. -/
structure StatusUpdater (σ : Type) where
  Name : String
  IsEnabled : σ → Bool × σ
  Target : σ → VersionStatus
  setTarget : VersionStatus → σ → σ
  CustomImage : σ → String × σ
  CustomVersion : σ → String
  IsAutoUpdateEnabled : σ → Bool
  IsAutoRegistryEnabled : σ → Bool
  CheckForDowngrade : σ → String → Except Error Bool
  UseTenantRegistry : σ → Option Error × σ
  ValidateStatus : σ → Option Error

/-- Writing through the pointer returned by `Target()` and reading it back
gives the value written. -/
def StatusUpdater.TargetIsCell {σ : Type} (u : StatusUpdater σ) : Prop :=
  ∀ (v : VersionStatus) (s : σ), u.Target (u.setTarget v s) = v

/-- Calls on the updater that the engine's trace records. -/
inductive Call where
  | UseTenantRegistry
  | CheckForDowngrade (candidate : String)
  | ValidateStatus
  deriving DecidableEq

/-- Outcome of one engine pass: the returned error (`none` is `nil`), the
memory afterwards and the recorded calls in order. -/
structure RunResult (σ : Type) where
  err : Option Error
  state : σ
  calls : List Call

/-! ## The reconcile engine (missing `updater.go`) -/

/-- Modelled from the spec: `determineSource` of the missing `updater.go`
(spec 4.2). `CustomImage()` is consulted first and `CustomVersion()` only when
the custom image is empty, as `TestRun` "custom image is set" requires (its
mock has no `CustomVersion` expectation). The memory after the call of
`CustomImage()` is returned with the source. -/
def determineSource {σ : Type} (u : StatusUpdater σ) (s : σ) : VersionSource × σ :=
  let r := u.CustomImage s
  if r.1 ≠ "" then (CustomImageVersionSource, r.2)
  else if u.CustomVersion r.2 ≠ "" then (CustomVersionVersionSource, r.2)
  else (TenantRegistryVersionSource, r.2)

/-- Modelled from the spec: the decision of step 3 of `run` (spec 4.3) for a
source other than the custom image: a pinned version is re-asserted on every
pass; the tenant registry is probed when auto-update is enabled, when
`Target()` is empty, or when `Target().Source` differs from the source. -/
def probeRequired {σ : Type} (u : StatusUpdater σ) (source : VersionSource) (s : σ) : Bool :=
  match source with
  | VersionSource.CustomVersion => true
  | _ =>
    u.IsAutoUpdateEnabled s
      || decide (u.Target s = emptyVersionStatus)
      || decide ((u.Target s).Source ≠ source)

/-- Modelled from the spec: steps 4 and 5 of `run` (spec 4.3): the call of
`UseTenantRegistry`, and after a successful probe that left a version string
in `Target()` the downgrade guard. A probe error ends the pass with `Target()`
as the probe left it; a reported downgrade restores the previously recorded
`VersionStatus` and is no error; an error of the guard is returned like a
probe error. The guard compares against the version recorded before the
probe. -/
def probe {σ : Type} (u : StatusUpdater σ) (s : σ) : Option Error × σ × List Call :=
  let prev := u.Target s
  match u.UseTenantRegistry s with
  | (some e, s1) => (some e, s1, [Call.UseTenantRegistry])
  | (none, s1) =>
    let newVersion := (u.Target s1).Version
    if newVersion = "" then (none, s1, [Call.UseTenantRegistry])
    else
      match u.CheckForDowngrade s newVersion with
      | Except.error e =>
        (some e, s1, [Call.UseTenantRegistry, Call.CheckForDowngrade newVersion])
      | Except.ok true =>
        (none, u.setTarget prev s1, [Call.UseTenantRegistry, Call.CheckForDowngrade newVersion])
      | Except.ok false =>
        (none, s1, [Call.UseTenantRegistry, Call.CheckForDowngrade newVersion])

/-- Modelled from the spec: steps 3 to 5 of `run` (spec 4.3). For a custom
image the status is written directly from `CustomImage()` and the vendor API
is not consulted. For the other two sources the probe is `UseTenantRegistry`:
`TestRun` "runs if status custom-version is set" counts one call of it per
pass for a pinned version, and `codeModulesUpdater.UseTenantRegistry` has the
branch that serves it. -/
def resolve {σ : Type} (u : StatusUpdater σ) (source : VersionSource) (s : σ) :
    Option Error × σ × List Call :=
  match source with
  | VersionSource.CustomImage =>
    let r := u.CustomImage s
    let t := u.Target r.2
    (none,
     u.setTarget { t with Source := CustomImageVersionSource,
                          Version := CustomImageVersionSource.toStr,
                          ImageID := r.1 } r.2,
     [])
  | _ => if probeRequired u source s then probe u s else (none, s, [])

/-- Modelled from the spec: step 6 of `run` (spec 4.3), the write of
`LastProbeTimestamp` and `Source` through `Target()`. -/
def stamp {σ : Type} (u : StatusUpdater σ) (now : Nat) (source : VersionSource) (s : σ) : σ :=
  u.setTarget { u.Target s with LastProbeTimestamp := some now, Source := source } s

/-- Modelled from the spec: `reconciler.run` of the missing `updater.go`,
the seven steps of spec 4.3 in order; `now` is the reading of the time
provider. A disabled updater ends the pass at once; an error of steps 4 or 5
ends it without steps 6 and 7; otherwise timestamp and source are written
(also when the probe was skipped: `TestRun` "public registry is ignored"
finds `LastProbeTimestamp` equal to now after a pass without probe) and the
result of `ValidateStatus` is returned. -/
def run {σ : Type} (u : StatusUpdater σ) (now : Nat) (s : σ) : RunResult σ :=
  let en := u.IsEnabled s
  if en.1 = false then { err := none, state := en.2, calls := [] }
  else
    let src := determineSource u en.2
    match resolve u src.1 src.2 with
    | (some e, s3, calls) => { err := some e, state := s3, calls := calls }
    | (none, s3, calls) =>
      let s4 := stamp u now src.1 s3
      { err := u.ValidateStatus s4, state := s4, calls := calls ++ [Call.ValidateStatus] }

/-- Number of calls of `UseTenantRegistry` in a trace. -/
def probeCalls (calls : List Call) : Nat := calls.count Call.UseTenantRegistry

/-! ## The mock updaters of `updater_test.go`

The mock's memory is the `VersionStatus` behind the pointer handed to
`newBaseUpdater`. Methods for which the Go helper registers no expectation
get the neutral result here; they are not reached on the paths used. -/

/-- The helper `newBaseUpdater`: enabled, the given auto-update flag,
`ValidateStatus` returning nil. -/
def newBaseUpdater (autoUpdate : Bool) : StatusUpdater VersionStatus :=
  { Name := "mock"
    IsEnabled := fun s => (true, s)
    Target := fun s => s
    setTarget := fun v _ => v
    CustomImage := fun s => ("", s)
    CustomVersion := fun _ => ""
    IsAutoUpdateEnabled := fun _ => autoUpdate
    IsAutoRegistryEnabled := fun _ => false
    CheckForDowngrade := fun _ _ => Except.ok false
    UseTenantRegistry := fun s => (none, s)
    ValidateStatus := fun _ => none }

/-- The helper `newCustomImageUpdater`. -/
def newCustomImageUpdater (image : String) : StatusUpdater VersionStatus :=
  { newBaseUpdater true with CustomImage := fun s => (image, s) }

/-- The helper `newCustomVersionUpdater`. -/
def newCustomVersionUpdater (version : String) (autoUpdate : Bool) :
    StatusUpdater VersionStatus :=
  { newBaseUpdater autoUpdate with CustomVersion := fun _ => version }

/-- The helper `newFailingUpdater`: `UseTenantRegistry` returns the error
"BOOM". -/
def newFailingUpdater : StatusUpdater VersionStatus :=
  { newBaseUpdater true with UseTenantRegistry := fun s => (some "BOOM", s) }

/-- The helper `newDefaultUpdater`. -/
def newDefaultUpdater (autoUpdate : Bool) : StatusUpdater VersionStatus :=
  newBaseUpdater autoUpdate

/-- A mock like `newDefaultUpdater` whose `ValidateStatus` returns the given
error. -/
def newInvalidUpdater (autoUpdate : Bool) (image : String) (e : Error) :
    StatusUpdater VersionStatus :=
  { newBaseUpdater autoUpdate with
    CustomImage := fun s => (image, s)
    ValidateStatus := fun _ => some e }

/-! ## The DynaKube and the condition ledger -/

/-- Modelled from the spec: one entry of the condition ledger (`metav1.Condition`
is not part of the sources): the condition type, its status and its reason. -/
structure Condition where
  CondType : String
  Status : String
  Reason : String
  Message : String
  deriving DecidableEq

/-- Modelled from the spec: `meta.RemoveStatusCondition`, which drops every
entry of the given condition type. -/
def RemoveStatusCondition (conditions : List Condition) (conditionType : String) :
    List Condition :=
  conditions.filter (fun c => decide (c.CondType ≠ conditionType))

/-- Modelled from the spec: `meta.SetStatusCondition` with the ledger's
replace-or-append semantics, one entry per condition type. -/
def SetStatusCondition (conditions : List Condition) (c : Condition) : List Condition :=
  if conditions.any (fun d => decide (d.CondType = c.CondType)) then
    conditions.map (fun d => if d.CondType = c.CondType then c else d)
  else conditions ++ [c]

/-- Modelled from the spec: `setVerificationSkippedReasonCondition` of the
missing `conditions.go`. -/
def setVerificationSkippedReasonCondition (conditions : List Condition)
    (conditionType : String) : List Condition :=
  SetStatusCondition conditions
    { CondType := conditionType, Status := "True", Reason := "VerificationSkipped",
      Message := "Version verification skipped, due to custom setup." }

/-- Modelled from the spec: `setVerifiedCondition` of the missing
`conditions.go`. -/
def setVerifiedCondition (conditions : List Condition) (conditionType : String) :
    List Condition :=
  SetStatusCondition conditions
    { CondType := conditionType, Status := "True", Reason := "VersionVerified",
      Message := "Version verified for component." }

/-- Modelled from the spec: `k8sconditions.SetDynatraceAPIError`, the
condition that records a failed vendor API call. -/
def SetDynatraceAPIError (conditions : List Condition) (conditionType : String)
    (err : Error) : List Condition :=
  SetStatusCondition conditions
    { CondType := conditionType, Status := "False", Reason := "DynatraceApiError",
      Message := "A problem occurred when using the Dynatrace API: " ++ err }

/-- The part of `dynakube.DynaKube` the two updaters read and write. The
accessors of the missing package `dynakube` are represented by the value they
return: `ActiveGateIsEnabled` is `dk.ActiveGate().IsEnabled()`,
`ActiveGateCustomImage` is `dk.ActiveGate().GetCustomImage()`,
`IsActiveGateUpdatesDisabled` and `IsAutomaticRegistry` are the feature flags
of `dk.FF()`, `IsAppInjectionNeeded`, `CustomCodeModulesImage` and
`CustomCodeModulesVersion` are the accessors of `dk.OneAgent()`. -/
structure DynaKube where
  ActiveGateIsEnabled : Bool
  ActiveGateCustomImage : String
  IsActiveGateUpdatesDisabled : Bool
  IsAutomaticRegistry : Bool
  IsAppInjectionNeeded : Bool
  CustomCodeModulesImage : String
  CustomCodeModulesVersion : String
  Conditions : List Condition
  ActiveGateVersionStatus : VersionStatus
  CodeModulesVersionStatus : VersionStatus
  deriving DecidableEq

/-- The answers of the vendor client `dtclient.Client` during one pass. -/
structure Client where
  GetLatestActiveGateVersion : Except Error String
  GetLatestAgentVersion : Except Error String

def activeGateVersionConditionType : String := "ActiveGateVersion"

def cmConditionType : String := "CodeModulesVersion"

/-- Modelled from the spec: `updateVersionStatusForTenantRegistry` of the
missing `updater.go`, which writes the resolved image and version into the
target and leaves source and timestamp to the engine. -/
def updateVersionStatusForTenantRegistry (target : VersionStatus) (imageURI : String)
    (latestVersion : String) : Except Error VersionStatus :=
  Except.ok { target with ImageID := imageURI, Version := latestVersion }

/-! ## `activegate.go` -/

namespace activeGateUpdater

def Name : String := "activegate"

def IsEnabled (dk : DynaKube) : Bool × DynaKube :=
  if dk.ActiveGateIsEnabled then (true, dk)
  else
    (false,
     { dk with
       Conditions := RemoveStatusCondition dk.Conditions activeGateVersionConditionType
       ActiveGateVersionStatus := emptyVersionStatus })

def Target (dk : DynaKube) : VersionStatus := dk.ActiveGateVersionStatus

def setTarget (v : VersionStatus) (dk : DynaKube) : DynaKube :=
  { dk with ActiveGateVersionStatus := v }

def CustomImage (dk : DynaKube) : String × DynaKube :=
  let customImage := dk.ActiveGateCustomImage
  if customImage ≠ "" then
    (customImage,
     { dk with
       Conditions :=
         setVerificationSkippedReasonCondition dk.Conditions activeGateVersionConditionType })
  else (customImage, dk)

def CustomVersion (_ : DynaKube) : String := ""

def IsAutoUpdateEnabled (dk : DynaKube) : Bool := !dk.IsActiveGateUpdatesDisabled

def CheckForDowngrade (_ : DynaKube) (_ : String) : Except Error Bool := Except.ok false

def IsAutoRegistryEnabled (dk : DynaKube) : Bool := dk.IsAutomaticRegistry

/-- The method `UseTenantRegistry`; `GetDefaultImage` stands for
`dk.ActiveGate().GetDefaultImage` of the missing package `dynakube`. -/
def UseTenantRegistry (dtClient : Client) (GetDefaultImage : String → String)
    (dk : DynaKube) : Option Error × DynaKube :=
  match dtClient.GetLatestActiveGateVersion with
  | Except.error err =>
    (some err,
     { dk with
       Conditions := SetDynatraceAPIError dk.Conditions activeGateVersionConditionType err })
  | Except.ok latestVersion =>
    let defaultImage := GetDefaultImage latestVersion
    match updateVersionStatusForTenantRegistry (Target dk) defaultImage latestVersion with
    | Except.error err => (some err, dk)
    | Except.ok target =>
      let dk1 := setTarget target dk
      (none,
       { dk1 with
         Conditions := setVerifiedCondition dk1.Conditions activeGateVersionConditionType })

def ValidateStatus (dk : DynaKube) : Option Error :=
  let imageVersion := (Target dk).Version
  if imageVersion = "" then some "build version of ActiveGate image is not set"
  else none

end activeGateUpdater

/-- The constructor `newActiveGateUpdater`: the updater over the DynaKube it
points to. -/
def newActiveGateUpdater (dtClient : Client) (GetDefaultImage : String → String) :
    StatusUpdater DynaKube :=
  { Name := activeGateUpdater.Name
    IsEnabled := activeGateUpdater.IsEnabled
    Target := activeGateUpdater.Target
    setTarget := activeGateUpdater.setTarget
    CustomImage := activeGateUpdater.CustomImage
    CustomVersion := activeGateUpdater.CustomVersion
    IsAutoUpdateEnabled := activeGateUpdater.IsAutoUpdateEnabled
    IsAutoRegistryEnabled := activeGateUpdater.IsAutoRegistryEnabled
    CheckForDowngrade := activeGateUpdater.CheckForDowngrade
    UseTenantRegistry := activeGateUpdater.UseTenantRegistry dtClient GetDefaultImage
    ValidateStatus := activeGateUpdater.ValidateStatus }

/-! ## `codemodules.go` -/

namespace codeModulesUpdater

def Name : String := "codemodules"

def IsEnabled (dk : DynaKube) : Bool × DynaKube :=
  if dk.IsAppInjectionNeeded then (true, dk)
  else
    (false,
     { dk with
       CodeModulesVersionStatus := emptyVersionStatus
       Conditions := RemoveStatusCondition dk.Conditions cmConditionType })

def Target (dk : DynaKube) : VersionStatus := dk.CodeModulesVersionStatus

def setTarget (v : VersionStatus) (dk : DynaKube) : DynaKube :=
  { dk with CodeModulesVersionStatus := v }

def CustomImage (dk : DynaKube) : String × DynaKube :=
  let customImage := dk.CustomCodeModulesImage
  if customImage ≠ "" then
    (customImage,
     { dk with Conditions := setVerificationSkippedReasonCondition dk.Conditions cmConditionType })
  else (customImage, dk)

def CustomVersion (dk : DynaKube) : String := dk.CustomCodeModulesVersion

def IsAutoUpdateEnabled (_ : DynaKube) : Bool := true

def IsAutoRegistryEnabled (dk : DynaKube) : Bool := dk.IsAutomaticRegistry

def CheckForDowngrade (_ : DynaKube) (_ : String) : Except Error Bool := Except.ok false

/-- The method `UseTenantRegistry`: `Status.CodeModules` is replaced as a
whole by a status that carries the version only. -/
def UseTenantRegistry (dtClient : Client) (dk : DynaKube) : Option Error × DynaKube :=
  let customVersion := CustomVersion dk
  if customVersion ≠ "" then
    (none,
     { dk with
       CodeModulesVersionStatus := { emptyVersionStatus with Version := customVersion }
       Conditions := setVerificationSkippedReasonCondition dk.Conditions cmConditionType })
  else
    match dtClient.GetLatestAgentVersion with
    | Except.error err =>
      (some err,
       { dk with Conditions := SetDynatraceAPIError dk.Conditions cmConditionType err })
    | Except.ok latestAgentVersionUnixPaas =>
      (none,
       { dk with
         CodeModulesVersionStatus :=
           { emptyVersionStatus with Version := latestAgentVersionUnixPaas }
         Conditions := setVerifiedCondition dk.Conditions cmConditionType })

def ValidateStatus (_ : DynaKube) : Option Error := none

end codeModulesUpdater

/-- The constructor `newCodeModulesUpdater`. -/
def newCodeModulesUpdater (dtClient : Client) : StatusUpdater DynaKube :=
  { Name := codeModulesUpdater.Name
    IsEnabled := codeModulesUpdater.IsEnabled
    Target := codeModulesUpdater.Target
    setTarget := codeModulesUpdater.setTarget
    CustomImage := codeModulesUpdater.CustomImage
    CustomVersion := codeModulesUpdater.CustomVersion
    IsAutoUpdateEnabled := codeModulesUpdater.IsAutoUpdateEnabled
    IsAutoRegistryEnabled := codeModulesUpdater.IsAutoRegistryEnabled
    CheckForDowngrade := codeModulesUpdater.CheckForDowngrade
    UseTenantRegistry := codeModulesUpdater.UseTenantRegistry dtClient
    ValidateStatus := codeModulesUpdater.ValidateStatus }

/-- A DynaKube with nothing enabled, nothing pinned and an empty status. -/
def emptyDynaKube : DynaKube :=
  { ActiveGateIsEnabled := false
    ActiveGateCustomImage := ""
    IsActiveGateUpdatesDisabled := false
    IsAutomaticRegistry := false
    IsAppInjectionNeeded := false
    CustomCodeModulesImage := ""
    CustomCodeModulesVersion := ""
    Conditions := []
    ActiveGateVersionStatus := emptyVersionStatus
    CodeModulesVersionStatus := emptyVersionStatus }

/-! ## Version order (downgrade guard) -/

/-- Reads the numeric components of a version string, separated by `.` or
`-`; `acc` is the component being read. A component without digits or a
character other than a digit or a separator makes the string malformed. -/
def parseVersionAux : List Char → Option Nat → Option (List Nat)
  | [], none => none
  | [], some n => some [n]
  | c :: cs, acc =>
    if c.isDigit then parseVersionAux cs (some (acc.getD 0 * 10 + (c.toNat - 48)))
    else if c = '.' ∨ c = '-' then
      match acc with
      | none => none
      | some n => (parseVersionAux cs none).map (fun r => n :: r)
    else none

/-- Modelled from the spec: the components of a version string such as
"1.2.3.4-5"; `none` for a malformed string. The version helpers of the
operator are not part of the sources. -/
def parseVersion (v : String) : Option (List Nat) := parseVersionAux v.data none

/-- Lexicographic order on component lists. -/
def componentsLt : List Nat → List Nat → Bool
  | [], [] => false
  | [], _ :: _ => true
  | _ :: _, [] => false
  | a :: as, b :: bs => decide (a < b) || (decide (a = b) && componentsLt as bs)

/-- Modelled from the spec: "adopting the candidate would be a downgrade from
the currently recorded version", that is, the candidate is older than the
recorded version; an error for a malformed version string. -/
def isDowngrade (recorded candidate : String) : Except Error Bool :=
  match parseVersion recorded, parseVersion candidate with
  | some r, some c => Except.ok (componentsLt c r)
  | _, _ => Except.error "malformed version"

/-! ## Image reference parser (missing `updater.go`) -/

/-- Splits at the first occurrence of the delimiter: what stands before it
and, when the delimiter occurs, what follows it. -/
def splitAtFirst (d : Char) : List Char → List Char × Option (List Char)
  | [] => ([], none)
  | c :: cs =>
    if c = d then ([], some cs)
    else ((splitAtFirst d cs).1.cons c, (splitAtFirst d cs).2)

/-- Splits at the last occurrence of the delimiter. -/
def splitAtLast (d : Char) (cs : List Char) : List Char × Option (List Char) :=
  match splitAtFirst d cs.reverse with
  | (_, none) => (cs, none)
  | (after, some before) => (before.reverse, some after.reverse)

def isHexDigit (c : Char) : Bool :=
  c.isDigit || (decide ('a' ≤ c) && decide (c ≤ 'f')) || (decide ('A' ≤ c) && decide (c ≤ 'F'))

/-- The text after the digest delimiter is `sha256:` and 64 hex digits. -/
def isSha256Digest (cs : List Char) : Bool :=
  "sha256:".data.isPrefixOf cs && decide ((cs.drop 7).length = 64) && (cs.drop 7).all isHexDigit

/-- Modelled from the spec: the tag of the part of an image reference that
precedes the digest (spec 4.4): what follows the last `:`, unless that is
empty or contains a `/` (then the colon belongs to the registry's port and no
tag is present). -/
def tagOfName (name : List Char) : String × Option Error :=
  match (splitAtLast ':' name).2 with
  | none => ("", some "no tag found")
  | some tag =>
    if tag = [] ∨ '/' ∈ tag then ("", some "no tag found")
    else (String.mk tag, none)

/-- Modelled from the spec: `getTagFromImageID` of the missing `updater.go`
(spec 4.4) on references of the form `registry[:tag][@digest]`. A digest
delimiter that is not followed by a valid digest is a parse error; without a
tag the result is the "no tag" error, with or without a digest; a tag is
returned verbatim. On an error the returned tag is the empty string. -/
def getTagFromImageID (imageID : String) : String × Option Error :=
  match splitAtFirst '@' imageID.data with
  | (name, none) => tagOfName name
  | (name, some digest) =>
    if isSha256Digest digest then tagOfName name
    else ("", some "could not parse reference")

/-! ## Condition lookup and the order of probe timestamps -/

/-- Modelled from the spec: `meta.FindStatusCondition`, the entry of the
ledger for a condition type, if there is one. -/
def FindStatusCondition (conditions : List Condition) (conditionType : String) :
    Option Condition :=
  conditions.find? (fun c => decide (c.CondType = conditionType))

/-- Order of probe timestamps, "not later than": the nil timestamp of the
zero `VersionStatus` (never probed) precedes every time. -/
def timestampLe : Option Nat → Option Nat → Bool
  | none, _ => true
  | some _, none => false
  | some a, some b => decide (a ≤ b)

end Version

/-! ## The ActiveGate API client (`pkg/clients/dynatrace/activegate/client.go`) -/

namespace activegate

/-- Go errors are represented by their message. -/
abbrev Error := String

structure ConnectionInfo where
  TenantUUID : String
  TenantToken : String
  Endpoints : String
  deriving DecidableEq

structure connectionInfoJSONResponse where
  TenantUUID : String
  TenantToken : String
  CommunicationEndpoints : String
  deriving DecidableEq

/-- The zero value `ConnectionInfo{}`. -/
def emptyConnectionInfo : ConnectionInfo :=
  { TenantUUID := "", TenantToken := "", Endpoints := "" }

/-- The zero value of `var resp connectionInfoJSONResponse`. -/
def emptyConnectionInfoJSONResponse : connectionInfoJSONResponse :=
  { TenantUUID := "", TenantToken := "", CommunicationEndpoints := "" }

/-- The library call `errors.WithStack` on a non-nil error: the result is a
non-nil error with the same message. -/
def WithStack (err : Error) : Error := err

/-- The method `Client.GetConnectionInfo`. `execute` stands for the request
`c.apiClient.GET(ctx, connectionInfoPath).WithPaasToken().Execute(&resp)` of
the missing package `core`: it receives the zero response object, returns it
as the request filled it, and the request's error (`none` is nil). -/
def GetConnectionInfo
    (execute : connectionInfoJSONResponse → connectionInfoJSONResponse × Option Error) :
    ConnectionInfo × Option Error :=
  let r := execute emptyConnectionInfoJSONResponse
  match r.2 with
  | some err => (emptyConnectionInfo, some (WithStack err))
  | none =>
    let resp := r.1
    let connectionInfo : ConnectionInfo :=
      { TenantUUID := resp.TenantUUID
        TenantToken := resp.TenantToken
        Endpoints := resp.CommunicationEndpoints }
    (connectionInfo, none)

structure AuthTokenInfo where
  TokenID : String
  Token : String
  deriving DecidableEq

structure authTokenParams where
  Name : String
  ActiveGateType : String
  ExpirationDate : String
  SeedToken : Bool
  deriving DecidableEq

def activeGateType : String := "ENVIRONMENT"

/-- The zero value of `var authTokenInfo AuthTokenInfo`. -/
def emptyAuthTokenInfo : AuthTokenInfo := { TokenID := "", Token := "" }

/-- The library call `errors.WithMessage` on a non-nil error: a non-nil error
whose message is the given one, a colon and the message of the cause. -/
def WithMessage (err : Error) (message : String) : Error := message ++ ": " ++ err

/-- The method `Client.GetAuthToken`. `execute` stands for the request
`c.apiClient.POST(ctx, authTokenPath).WithJSONBody(body).Execute(&authTokenInfo)`
of the missing package `core`: from the body and the zero `AuthTokenInfo` it
gives the object as the request filled it and the request's error.
`expirationDate` is the reading of `getAuthTokenExpirationDate()`, which
depends on the clock. The returned pointer is `none` for nil. -/
def GetAuthToken
    (execute : authTokenParams → AuthTokenInfo → AuthTokenInfo × Option Error)
    (expirationDate : String) (dynakubeName : String) :
    Option AuthTokenInfo × Option Error :=
  let body : authTokenParams :=
    { Name := dynakubeName
      SeedToken := false
      ActiveGateType := activeGateType
      ExpirationDate := expirationDate }
  let r := execute body emptyAuthTokenInfo
  match r.2 with
  | some err => (none, some (WithMessage err "failed to retrieve ag-auth-token"))
  | none => (some r.1, none)

end activegate

/-! ## The e2e DynaKube options (`test/e2e/helpers/components/dynakube/options.go`) -/

namespace e2e

def DevRegistryPullSecretName : String := "devregistry"

/-- The two fields of `image.Ref` (package `image` is missing) that
`setImageRefFromEnvs` assigns. -/
structure Ref where
  Repository : String
  Tag : String
  deriving DecidableEq

/-- The field `dk.Spec.CustomPullSecret` of the DynaKube. -/
structure DynaKube where
  CustomPullSecret : String
  deriving DecidableEq

/-- The library call `strings.Cut(s, sep)` for a separator of one character:
the text before the first separator, the text after it, and whether the
separator occurs; without separator the whole string and the empty string. -/
def Cut (s : String) (sep : Char) : String × String × Bool :=
  match Version.splitAtFirst sep s.data with
  | (before, some after) => (String.mk before, String.mk after, true)
  | (_, none) => (s, "", false)

/-- The function `setImageRefFromEnvs`. `Getenv` is `os.Getenv`, an unset
variable reads as the empty string; the DynaKube and the image reference
behind the two pointers are returned with the result. -/
def setImageRefFromEnvs (Getenv : String → String) (dk : DynaKube) (image : Ref)
    (envVar defaultValue : String) : Bool × DynaKube × Ref :=
  let value := Getenv envVar
  let value := if value = "" then defaultValue else value
  let cut := Cut value ':'
  let image1 : Ref := { image with Repository := cut.1, Tag := cut.2.1 }
  if value ≠ defaultValue then
    (true, { dk with CustomPullSecret := DevRegistryPullSecretName }, image1)
  else (false, dk, image1)

end e2e

/-! ## Condition setters of the missing package `k8sconditions` -/

namespace k8sconditions

/-- Modelled from the spec: `k8sconditions.SetKubeAPIError`, the condition
that records a failed Kubernetes API call. -/
def SetKubeAPIError (conditions : List Version.Condition) (conditionType : String)
    (err : String) : List Version.Condition :=
  Version.SetStatusCondition conditions
    { CondType := conditionType, Status := "False", Reason := "KubeApiError",
      Message := "A problem occurred when using the Kubernetes API: " ++ err }

/-- Modelled from the spec: `k8sconditions.SetConfigMapOutdated`. -/
def SetConfigMapOutdated (conditions : List Version.Condition) (conditionType : String)
    (name : String) : List Version.Condition :=
  Version.SetStatusCondition conditions
    { CondType := conditionType, Status := "False", Reason := "ConfigMapOutdated",
      Message := name ++ " is outdated" }

/-- Modelled from the spec: `k8sconditions.SetConfigMapCreatedOrUpdated`. -/
def SetConfigMapCreatedOrUpdated (conditions : List Version.Condition)
    (conditionType : String) (name : String) : List Version.Condition :=
  Version.SetStatusCondition conditions
    { CondType := conditionType, Status := "True", Reason := "ConfigMapCreatedOrUpdated",
      Message := name ++ " created or updated" }

/-- Modelled from the spec: `k8sconditions.SetConfigMapGenFailed`. -/
def SetConfigMapGenFailed (conditions : List Version.Condition) (conditionType : String)
    (err : String) : List Version.Condition :=
  Version.SetStatusCondition conditions
    { CondType := conditionType, Status := "False", Reason := "ConfigMapGenerationFailed",
      Message := "Failed to generate config map: " ++ err }

/-- Modelled from the spec: `k8sconditions.SetDataIngestTokenMissing`. -/
def SetDataIngestTokenMissing (conditions : List Version.Condition) (conditionType : String)
    (msg : String) : List Version.Condition :=
  Version.SetStatusCondition conditions
    { CondType := conditionType, Status := "False", Reason := "DataIngestTokenMissing",
      Message := msg }

/-- Modelled from the spec: `k8sconditions.SetStatefulSetCreated`. -/
def SetStatefulSetCreated (conditions : List Version.Condition) (conditionType : String)
    (name : String) : List Version.Condition :=
  Version.SetStatusCondition conditions
    { CondType := conditionType, Status := "True", Reason := "StatefulSetCreated",
      Message := name ++ " created" }

end k8sconditions

/-! ## The OTel collector reconcilers (`pkg/controllers/dynakube/otelc`) -/

namespace otelc

/-- Go errors are represented by their message. -/
abbrev Error := String

/-- The four sub-reconcilers held by the `Reconciler`. -/
inductive SubReconciler where
  | service
  | endpoint
  | configuration
  | statefulset
  deriving DecidableEq

/-- The struct `Reconciler`: each sub-reconciler's `Reconcile(ctx, dk)` is a
function from the DynaKube it is given to its error and the DynaKube it
leaves. -/
structure Reconciler (σ : Type) where
  statefulsetReconciler : σ → Option Error × σ
  serviceReconciler : σ → Option Error × σ
  endpointReconciler : σ → Option Error × σ
  configurationReconciler : σ → Option Error × σ

/-- The method `Reconciler.Reconcile` of `otelc/reconciler.go`; the third
component records which sub-reconcilers were invoked, in order. -/
def Reconcile {σ : Type} (r : Reconciler σ) (dk : σ) :
    Option Error × σ × List SubReconciler :=
  match r.serviceReconciler dk with
  | (some err, dk1) => (some err, dk1, [SubReconciler.service])
  | (none, dk1) =>
    match r.endpointReconciler dk1 with
    | (some err, dk2) => (some err, dk2, [SubReconciler.service, SubReconciler.endpoint])
    | (none, dk2) =>
      match r.configurationReconciler dk2 with
      | (some err, dk3) =>
        (some err, dk3,
         [SubReconciler.service, SubReconciler.endpoint, SubReconciler.configuration])
      | (none, dk3) =>
        match r.statefulsetReconciler dk3 with
        | (some err, dk4) =>
          (some err, dk4,
           [SubReconciler.service, SubReconciler.endpoint, SubReconciler.configuration,
            SubReconciler.statefulset])
        | (none, dk4) =>
          (none, dk4,
           [SubReconciler.service, SubReconciler.endpoint, SubReconciler.configuration,
            SubReconciler.statefulset])

/-- The part of the DynaKube the collector reconcilers read and write:
`TelemetryIngestIsEnabled` is `dk.TelemetryIngest().IsEnabled()`. -/
structure DynaKube where
  Name : String
  TelemetryIngestIsEnabled : Bool
  Conditions : List Version.Condition
  deriving DecidableEq

end otelc

/-! ### `otelc/configuration/reconciler.go` -/

namespace otelc.configuration

structure ConfigMap where
  Name : String
  Data : String
  deriving DecidableEq

/-- What the configuration reconciler needs from outside: the constants
`conditionType` and `otelcconsts.TelemetryCollectorConfigmapSuffix` of missing
files, the outcome of `r.getData(dk)` (the collector configuration rendered
with the missing package `otelcgen`), and the calls `k8sconfigmap.Build` and
`query.CreateOrUpdate`, whose second result tells whether the config map
changed. -/
structure Env where
  conditionType : String
  TelemetryCollectorConfigmapSuffix : String
  getData : otelc.DynaKube → Except Error String
  Build : otelc.DynaKube → String → String → Except Error ConfigMap
  CreateOrUpdate : ConfigMap → Except Error Bool

def GetConfigMapName (env : Env) (dkName : String) : String :=
  dkName ++ env.TelemetryCollectorConfigmapSuffix

/-- The method `Reconciler.prepareConfigMap`: the config map or the error,
and the DynaKube with the conditions it leaves. -/
def prepareConfigMap (env : Env) (dk : otelc.DynaKube) :
    Except Error ConfigMap × otelc.DynaKube :=
  match env.getData dk with
  | Except.error err => (Except.error err, dk)
  | Except.ok data =>
    match env.Build dk (GetConfigMapName env dk.Name) data with
    | Except.error err =>
      (Except.error err,
       { dk with
         Conditions := k8sconditions.SetConfigMapGenFailed dk.Conditions env.conditionType err })
    | Except.ok newSecret => (Except.ok newSecret, dk)

/-- The method `Reconciler.reconcileConfigMap`. -/
def reconcileConfigMap (env : Env) (dk : otelc.DynaKube) : Option Error × otelc.DynaKube :=
  match prepareConfigMap env dk with
  | (Except.error err, dk1) => (some err, dk1)
  | (Except.ok newConfigMap, dk1) =>
    match env.CreateOrUpdate newConfigMap with
    | Except.error err =>
      (some err,
       { dk1 with
         Conditions := k8sconditions.SetKubeAPIError dk1.Conditions env.conditionType err })
    | Except.ok changed =>
      let dk2 : otelc.DynaKube :=
        if changed then
          { dk1 with
            Conditions :=
              k8sconditions.SetConfigMapOutdated dk1.Conditions env.conditionType
                newConfigMap.Name }
        else dk1
      (none,
       { dk2 with
         Conditions :=
           k8sconditions.SetConfigMapCreatedOrUpdated dk2.Conditions env.conditionType
             newConfigMap.Name })

end otelc.configuration

/-! ### `otelc/service/reconciler.go` -/

namespace otelcgen

/-- The string type `otelcgen.Protocol` with the four constants the service
reconciler switches on (their values are declared in the missing package
`otelcgen`); `Other` is a protocol string that is none of the four
constants. -/
inductive Protocol where
  | ZipkinProtocol
  | OtlpProtocol
  | JaegerProtocol
  | StatsdProtocol
  | Other (name : String)
  deriving DecidableEq

end otelcgen

namespace corev1

/-- The two values of `corev1.Protocol` used for service ports. -/
inductive Protocol where
  | ProtocolTCP
  | ProtocolUDP
  deriving DecidableEq

/-- The fields of `corev1.ServicePort` the service reconciler fills;
`TargetPort` is the integer of `intstr.FromInt32`, `AppProtocol` the optional
string behind the pointer. -/
structure ServicePort where
  Name : String
  Port : Nat
  Protocol : corev1.Protocol
  AppProtocol : Option String
  TargetPort : Nat
  deriving DecidableEq

end corev1

namespace otelc.service

def zipkinPortName : String := "zipkin"
def zipkinPort : Nat := 9411
def otlpGRPCPortName : String := "otlp-grpc"
def otlpGRPCPort : Nat := 4317
def otlpHTTPPortName : String := "otlp-http"
def otlpHTTPPort : Nat := 4318
def jaegerGRPCPortName : String := "jaeger-grpc"
def jaegerGRPCPort : Nat := 14250
def jaegerThriftBinaryPortName : String := "jaeger-thrift-binary"
def jaegerThriftBinaryPort : Nat := 6832
def jaegerThriftCompactPortName : String := "jaeger-thrift-compact"
def jaegerThriftCompactPort : Nat := 6831
def jaegerThriftHTTPPortName : String := "jaeger-thrift-http"
def jaegerThriftHTTPPort : Nat := 14268
def statsdPortName : String := "statsd"
def statsdPort : Nat := 8125
def appProtocolHTTP : String := "http"
def appProtocolGRPC : String := "grpc"

/-- The ports one iteration of the loop in `buildServicePortList` appends:
the `switch` on the protocol. -/
def protocolPorts : otelcgen.Protocol → List corev1.ServicePort
  | otelcgen.Protocol.ZipkinProtocol =>
    [{ Name := zipkinPortName, Port := zipkinPort, Protocol := corev1.Protocol.ProtocolTCP,
       AppProtocol := none, TargetPort := zipkinPort }]
  | otelcgen.Protocol.OtlpProtocol =>
    [{ Name := otlpGRPCPortName, Port := otlpGRPCPort, Protocol := corev1.Protocol.ProtocolTCP,
       AppProtocol := some appProtocolGRPC, TargetPort := otlpGRPCPort },
     { Name := otlpHTTPPortName, Port := otlpHTTPPort, Protocol := corev1.Protocol.ProtocolTCP,
       AppProtocol := some appProtocolHTTP, TargetPort := otlpHTTPPort }]
  | otelcgen.Protocol.JaegerProtocol =>
    [{ Name := jaegerGRPCPortName, Port := jaegerGRPCPort,
       Protocol := corev1.Protocol.ProtocolTCP, AppProtocol := some appProtocolGRPC,
       TargetPort := jaegerGRPCPort },
     { Name := jaegerThriftBinaryPortName, Port := jaegerThriftBinaryPort,
       Protocol := corev1.Protocol.ProtocolUDP, AppProtocol := none,
       TargetPort := jaegerThriftBinaryPort },
     { Name := jaegerThriftCompactPortName, Port := jaegerThriftCompactPort,
       Protocol := corev1.Protocol.ProtocolUDP, AppProtocol := none,
       TargetPort := jaegerThriftCompactPort },
     { Name := jaegerThriftHTTPPortName, Port := jaegerThriftHTTPPort,
       Protocol := corev1.Protocol.ProtocolTCP, AppProtocol := none,
       TargetPort := jaegerThriftHTTPPort }]
  | otelcgen.Protocol.StatsdProtocol =>
    [{ Name := statsdPortName, Port := statsdPort, Protocol := corev1.Protocol.ProtocolUDP,
       AppProtocol := none, TargetPort := statsdPort }]
  | otelcgen.Protocol.Other _ => []

/-- The function `buildServicePortList`: nil for an empty list, otherwise the
loop that appends to `svcPorts` protocol by protocol. The nil slice and the
empty slice are both the empty list. -/
def buildServicePortList (protocols : List otelcgen.Protocol) : List corev1.ServicePort :=
  if protocols.length = 0 then []
  else
    protocols.foldl (fun svcPorts protocol => svcPorts ++ protocolPorts protocol) []

end otelc.service

/-! ### `otelc/statefulset/reconciler.go` -/

namespace otelc.statefulset

/-- The names of the tokens read from the DynaKube's token secret. -/
abbrev Tokens := List String

structure StatefulSet where
  Name : String
  Annotations : List (String × String)
  deriving DecidableEq

/-- What `createOrUpdateStatefulset` needs from outside: the constants
`conditionType` and `dynakube.TokenConditionType`, the token reader
`tokenReader.ReadTokens` and `token.CheckForDataIngestToken` of the missing
package `token`, the outcome of `r.buildTemplateAnnotations`, and the calls
`k8sstatefulset.Build` and `CreateOrUpdate`. -/
structure Env where
  conditionType : String
  TokenConditionType : String
  ReadTokens : otelc.DynaKube → Except Error Tokens
  CheckForDataIngestToken : Tokens → Bool
  buildTemplateAnnotations : otelc.DynaKube → Except Error (List (String × String))
  Build : otelc.DynaKube → List (String × String) → Except Error StatefulSet
  CreateOrUpdate : StatefulSet → Except Error Bool

/-- Calls on the cluster that the trace of `createOrUpdateStatefulset`
records. -/
inductive Action where
  | Build
  | CreateOrUpdate (name : String)
  deriving DecidableEq

/-- The method `Reconciler.checkDataIngestTokenExists`. -/
def checkDataIngestTokenExists (env : Env) (dk : otelc.DynaKube) : Bool :=
  match env.ReadTokens dk with
  | Except.error _ => false
  | Except.ok tokens => env.CheckForDataIngestToken tokens

/-- The method `Reconciler.createOrUpdateStatefulset`: its error, the
DynaKube with the conditions it leaves, and the calls of
`k8sstatefulset.Build` and `CreateOrUpdate` it made. -/
def createOrUpdateStatefulset (env : Env) (dk : otelc.DynaKube) :
    Option Error × otelc.DynaKube × List Action :=
  if dk.TelemetryIngestIsEnabled && !checkDataIngestTokenExists env dk then
    let msg := "data ingest token is missing, but it's required for telemetery ingest"
    (none,
     { dk with
       Conditions :=
         k8sconditions.SetDataIngestTokenMissing dk.Conditions env.TokenConditionType msg },
     [])
  else
    match env.buildTemplateAnnotations dk with
    | Except.error err => (some err, dk, [])
    | Except.ok templateAnnotations =>
      match env.Build dk templateAnnotations with
      | Except.error err =>
        (some err,
         { dk with
           Conditions := k8sconditions.SetKubeAPIError dk.Conditions env.conditionType err },
         [Action.Build])
      | Except.ok sts =>
        match env.CreateOrUpdate sts with
        | Except.error err =>
          (some err,
           { dk with
             Conditions := k8sconditions.SetKubeAPIError dk.Conditions env.conditionType err },
           [Action.Build, Action.CreateOrUpdate sts.Name])
        | Except.ok _ =>
          (none,
           { dk with
             Conditions :=
               k8sconditions.SetStatefulSetCreated dk.Conditions env.conditionType sts.Name },
           [Action.Build, Action.CreateOrUpdate sts.Name])

end otelc.statefulset

namespace Version

/-! ## Auxiliary facts about the engine -/

theorem probeCalls_probe {σ : Type} (u : StatusUpdater σ) (s : σ) :
    probeCalls (probe u s).2.2 = 1 := by
  unfold probe
  rcases h : u.UseTenantRegistry s with ⟨_ | e, s1⟩
  · simp only []
    split_ifs
    · simp [probeCalls]
    · rcases hc : u.CheckForDowngrade s (u.Target s1).Version with e | b
      · simp [probeCalls]
      · cases b <;> simp [probeCalls]
  · simp [probeCalls]

theorem probeCalls_resolve {σ : Type} (u : StatusUpdater σ) (source : VersionSource) (s : σ) :
    probeCalls (resolve u source s).2.2 =
      if source ≠ VersionSource.CustomImage ∧ probeRequired u source s = true then 1 else 0 := by
  cases source
  case CustomImage => simp [resolve, probeCalls]
  all_goals
    simp only [resolve]
    split_ifs with h1 h2 h2
    · exact probeCalls_probe u s
    · exact absurd ⟨by simp, h1⟩ h2
    · exact absurd h2.2 h1
    · simp [probeCalls]

theorem run_of_enabled {σ : Type} (u : StatusUpdater σ) (now : Nat) (s : σ)
    (hen : (u.IsEnabled s).1 = true) :
    run u now s =
      match resolve u (determineSource u (u.IsEnabled s).2).1 (determineSource u (u.IsEnabled s).2).2 with
      | (some e, s3, calls) => { err := some e, state := s3, calls := calls }
      | (none, s3, calls) =>
        { err := u.ValidateStatus (stamp u now (determineSource u (u.IsEnabled s).2).1 s3)
          state := stamp u now (determineSource u (u.IsEnabled s).2).1 s3
          calls := calls ++ [Call.ValidateStatus] } := by
  simp [run, hen]

theorem probeCalls_run {σ : Type} (u : StatusUpdater σ) (now : Nat) (s : σ)
    (hen : (u.IsEnabled s).1 = true) :
    probeCalls (run u now s).calls =
      probeCalls (resolve u (determineSource u (u.IsEnabled s).2).1
        (determineSource u (u.IsEnabled s).2).2).2.2 := by
  rw [run_of_enabled u now s hen]
  rcases resolve u (determineSource u (u.IsEnabled s).2).1
    (determineSource u (u.IsEnabled s).2).2 with ⟨_ | e, s3, calls⟩
  · simp [probeCalls]
  · simp

/-! ## Source precedence -/

/-- C1: `determineSource` returns the custom-image source when `CustomImage()`
is non-empty (whatever `CustomVersion()` is), the custom-version source when
the custom image is empty and `CustomVersion()` is non-empty, and the tenant
registry when both are empty; replacing `IsAutoUpdateEnabled` and
`IsAutoRegistryEnabled` by any other answers does not change the result. -/
theorem determineSource_precedence {σ : Type} (u : StatusUpdater σ) (s : σ) :
    ((u.CustomImage s).1 ≠ "" →
        (determineSource u s).1 = CustomImageVersionSource) ∧
    ((u.CustomImage s).1 = "" → u.CustomVersion (u.CustomImage s).2 ≠ "" →
        (determineSource u s).1 = CustomVersionVersionSource) ∧
    ((u.CustomImage s).1 = "" → u.CustomVersion (u.CustomImage s).2 = "" →
        (determineSource u s).1 = TenantRegistryVersionSource) ∧
    (∀ autoUpdate autoRegistry : σ → Bool,
        determineSource
          { u with IsAutoUpdateEnabled := autoUpdate, IsAutoRegistryEnabled := autoRegistry } s
          = determineSource u s) := by
  refine ⟨?_, ?_, ?_, ?_⟩
  · intro h
    simp [determineSource, h]
  · intro h1 h2
    simp [determineSource, h1, h2]
  · intro h1 h2
    simp [determineSource, h1, h2]
  · intro _ _
    rfl

theorem determineSource_precedence_witness :
    (determineSource (newCustomImageUpdater "my.special.image") emptyVersionStatus).1
        = CustomImageVersionSource ∧
    (determineSource (newCustomVersionUpdater "3.2.1.4-5" false) emptyVersionStatus).1
        = CustomVersionVersionSource ∧
    (determineSource (newDefaultUpdater true) emptyVersionStatus).1
        = TenantRegistryVersionSource :=
  ⟨(determineSource_precedence (newCustomImageUpdater "my.special.image")
      emptyVersionStatus).1 (by decide),
   (determineSource_precedence (newCustomVersionUpdater "3.2.1.4-5" false)
      emptyVersionStatus).2.1 (by decide) (by decide),
   (determineSource_precedence (newDefaultUpdater true)
      emptyVersionStatus).2.2.1 (by decide) (by decide)⟩

/-! ## The engine on a custom image -/

theorem custom_image_pass {σ : Type} (u : StatusUpdater σ) (now : Nat) (s : σ)
    (img : String) (hcell : u.TargetIsCell) (hen : (u.IsEnabled s).1 = true)
    (himg1 : (u.CustomImage (u.IsEnabled s).2).1 = img)
    (himg2 : (u.CustomImage (u.CustomImage (u.IsEnabled s).2).2).1 = img) (hne : img ≠ "") :
    (run u now s).err = u.ValidateStatus (run u now s).state ∧
    probeCalls (run u now s).calls = 0 ∧
    u.Target (run u now s).state =
      { Source := CustomImageVersionSource, ImageID := img,
        Version := CustomImageVersionSource.toStr, LastProbeTimestamp := some now } := by
  have hd : determineSource u (u.IsEnabled s).2
      = (VersionSource.CustomImage, (u.CustomImage (u.IsEnabled s).2).2) := by
    simp [determineSource, himg1, hne]
  rw [run_of_enabled u now s hen, hd]
  simp [resolve, stamp, probeCalls, himg2, hcell _ _]

/-- C2 (as stated, refuted): the mock of `TestRun` "invalid custom image"
(`newCustomImageUpdater "incorrect-uri"`, enabled, non-empty custom image)
with a `ValidateStatus` that reports the error "invalid" instead of nil: the
post-condition check of step 7 follows the custom-image resolution too, and
`run` returns its error, so a custom image alone does not make the pass free
of errors. -/
theorem run_custom_image_validate_error :
    (({ newCustomImageUpdater "incorrect-uri" with
        ValidateStatus := fun _ => some "invalid" } : StatusUpdater VersionStatus).IsEnabled
      emptyVersionStatus).1 = true ∧
    (({ newCustomImageUpdater "incorrect-uri" with
        ValidateStatus := fun _ => some "invalid" } : StatusUpdater VersionStatus).CustomImage
      emptyVersionStatus).1 = "incorrect-uri" ∧
    (run ({ newCustomImageUpdater "incorrect-uri" with
        ValidateStatus := fun _ => some "invalid" } : StatusUpdater VersionStatus)
      7 emptyVersionStatus).err = some "invalid" ∧
    probeCalls (run ({ newCustomImageUpdater "incorrect-uri" with
        ValidateStatus := fun _ => some "invalid" } : StatusUpdater VersionStatus)
      7 emptyVersionStatus).calls = 0 ∧
    (run ({ newCustomImageUpdater "incorrect-uri" with
        ValidateStatus := fun _ => some "invalid" } : StatusUpdater VersionStatus)
      7 emptyVersionStatus).state
      = { Source := CustomImageVersionSource, ImageID := "incorrect-uri",
          Version := CustomImageVersionSource.toStr, LastProbeTimestamp := some 7 } := by
  decide

/-- C2 (amended): for every enabled updater whose `CustomImage()` is a
non-empty string `img` (parsable or not) at the two calls the pass makes,
`run` returns what `ValidateStatus` reports on the written status, never
calls `UseTenantRegistry`, and leaves `Target()` with the custom-image source,
the string form of that source as version, `img` as image ID and the time
provider's now as probe timestamp. For the two concrete updaters
`ValidateStatus` accepts that status, so with a pinned image their pass
returns no error. -/
theorem run_custom_image {σ : Type} (u : StatusUpdater σ) (now : Nat) (s : σ) (img : String)
    (dtClient : Client) (GetDefaultImage : String → String) (dk : DynaKube) :
    (u.TargetIsCell → (u.IsEnabled s).1 = true →
      (u.CustomImage (u.IsEnabled s).2).1 = img →
      (u.CustomImage (u.CustomImage (u.IsEnabled s).2).2).1 = img → img ≠ "" →
        (run u now s).err = u.ValidateStatus (run u now s).state ∧
        probeCalls (run u now s).calls = 0 ∧
        u.Target (run u now s).state =
          { Source := CustomImageVersionSource, ImageID := img,
            Version := CustomImageVersionSource.toStr, LastProbeTimestamp := some now }) ∧
    (dk.ActiveGateIsEnabled = true → dk.ActiveGateCustomImage ≠ "" →
      (run (newActiveGateUpdater dtClient GetDefaultImage) now dk).err = none ∧
      probeCalls (run (newActiveGateUpdater dtClient GetDefaultImage) now dk).calls = 0 ∧
      (newActiveGateUpdater dtClient GetDefaultImage).Target
          (run (newActiveGateUpdater dtClient GetDefaultImage) now dk).state =
        { Source := CustomImageVersionSource, ImageID := dk.ActiveGateCustomImage,
          Version := CustomImageVersionSource.toStr, LastProbeTimestamp := some now }) ∧
    (dk.IsAppInjectionNeeded = true → dk.CustomCodeModulesImage ≠ "" →
      (run (newCodeModulesUpdater dtClient) now dk).err = none ∧
      probeCalls (run (newCodeModulesUpdater dtClient) now dk).calls = 0 ∧
      (newCodeModulesUpdater dtClient).Target
          (run (newCodeModulesUpdater dtClient) now dk).state =
        { Source := CustomImageVersionSource, ImageID := dk.CustomCodeModulesImage,
          Version := CustomImageVersionSource.toStr, LastProbeTimestamp := some now }) := by
  refine ⟨?_, ?_, ?_⟩
  · intro hcell hen himg1 himg2 hne
    exact custom_image_pass u now s img hcell hen himg1 himg2 hne
  · intro hen hne
    have h := custom_image_pass (newActiveGateUpdater dtClient GetDefaultImage) now dk
      dk.ActiveGateCustomImage (fun _ _ => rfl)
      (by simp [newActiveGateUpdater, activeGateUpdater.IsEnabled, hen])
      (by simp [newActiveGateUpdater, activeGateUpdater.IsEnabled,
        activeGateUpdater.CustomImage, hen, hne])
      (by simp [newActiveGateUpdater, activeGateUpdater.IsEnabled,
        activeGateUpdater.CustomImage, hen, hne])
      hne
    refine ⟨?_, h.2.1, h.2.2⟩
    rw [h.1]
    have ht := h.2.2
    simp only [newActiveGateUpdater, activeGateUpdater.Target] at ht
    simp only [newActiveGateUpdater, activeGateUpdater.ValidateStatus, activeGateUpdater.Target,
      ht]
    decide
  · intro hen hne
    have h := custom_image_pass (newCodeModulesUpdater dtClient) now dk
      dk.CustomCodeModulesImage (fun _ _ => rfl)
      (by simp [newCodeModulesUpdater, codeModulesUpdater.IsEnabled, hen])
      (by simp [newCodeModulesUpdater, codeModulesUpdater.IsEnabled,
        codeModulesUpdater.CustomImage, hen, hne])
      (by simp [newCodeModulesUpdater, codeModulesUpdater.IsEnabled,
        codeModulesUpdater.CustomImage, hen, hne])
      hne
    exact ⟨h.1.trans rfl, h.2.1, h.2.2⟩

theorem run_custom_image_witness :
    ((run (newCustomImageUpdater "incorrect-uri") 7 emptyVersionStatus).err
        = (newCustomImageUpdater "incorrect-uri").ValidateStatus
            (run (newCustomImageUpdater "incorrect-uri") 7 emptyVersionStatus).state ∧
      probeCalls (run (newCustomImageUpdater "incorrect-uri") 7 emptyVersionStatus).calls = 0 ∧
      (newCustomImageUpdater "incorrect-uri").Target
          (run (newCustomImageUpdater "incorrect-uri") 7 emptyVersionStatus).state =
        { Source := CustomImageVersionSource, ImageID := "incorrect-uri",
          Version := CustomImageVersionSource.toStr, LastProbeTimestamp := some 7 }) ∧
    ((run (newActiveGateUpdater
          { GetLatestActiveGateVersion := Except.error "BOOM",
            GetLatestAgentVersion := Except.error "BOOM" } (fun v => v)) 7
        { emptyDynaKube with
          ActiveGateIsEnabled := true, ActiveGateCustomImage := "incorrect-uri" }).err = none ∧
      probeCalls (run (newActiveGateUpdater
          { GetLatestActiveGateVersion := Except.error "BOOM",
            GetLatestAgentVersion := Except.error "BOOM" } (fun v => v)) 7
        { emptyDynaKube with
          ActiveGateIsEnabled := true, ActiveGateCustomImage := "incorrect-uri" }).calls = 0 ∧
      (newActiveGateUpdater
          { GetLatestActiveGateVersion := Except.error "BOOM",
            GetLatestAgentVersion := Except.error "BOOM" } (fun v => v)).Target
        (run (newActiveGateUpdater
          { GetLatestActiveGateVersion := Except.error "BOOM",
            GetLatestAgentVersion := Except.error "BOOM" } (fun v => v)) 7
        { emptyDynaKube with
          ActiveGateIsEnabled := true, ActiveGateCustomImage := "incorrect-uri" }).state =
        { Source := CustomImageVersionSource, ImageID := "incorrect-uri",
          Version := CustomImageVersionSource.toStr, LastProbeTimestamp := some 7 }) :=
  ⟨(run_custom_image (newCustomImageUpdater "incorrect-uri") 7 emptyVersionStatus
      "incorrect-uri"
      { GetLatestActiveGateVersion := Except.error "BOOM",
        GetLatestAgentVersion := Except.error "BOOM" } (fun v => v) emptyDynaKube).1
      (fun _ _ => rfl) rfl rfl rfl (by decide),
   (run_custom_image (newCustomImageUpdater "incorrect-uri") 7 emptyVersionStatus
      "incorrect-uri"
      { GetLatestActiveGateVersion := Except.error "BOOM",
        GetLatestAgentVersion := Except.error "BOOM" } (fun v => v)
      { emptyDynaKube with
        ActiveGateIsEnabled := true, ActiveGateCustomImage := "incorrect-uri" }).2.1
      rfl (by decide)⟩

/-! ## Throttling of the tenant-registry probe -/

/-- C3: for every enabled updater whose resolved source is the tenant
registry, `run` calls `UseTenantRegistry` exactly once if auto-update is
enabled, or `Target()` is the empty `VersionStatus`, or `Target().Source`
differs from the resolved source, and not at all otherwise; a differing
`Target().Source` alone forces the probe, whatever the auto-update flag. -/
theorem run_tenant_registry_probe_count {σ : Type} (u : StatusUpdater σ) (now : Nat) (s : σ)
    (hen : (u.IsEnabled s).1 = true)
    (hsrc : (determineSource u (u.IsEnabled s).2).1 = TenantRegistryVersionSource) :
    probeCalls (run u now s).calls =
      (if u.IsAutoUpdateEnabled (determineSource u (u.IsEnabled s).2).2 = true
          ∨ u.Target (determineSource u (u.IsEnabled s).2).2 = emptyVersionStatus
          ∨ (u.Target (determineSource u (u.IsEnabled s).2).2).Source
              ≠ (determineSource u (u.IsEnabled s).2).1
        then 1 else 0) ∧
    ((u.Target (determineSource u (u.IsEnabled s).2).2).Source
          ≠ (determineSource u (u.IsEnabled s).2).1 →
        probeCalls (run u now s).calls = 1) := by
  have hcount : probeCalls (run u now s).calls =
      (if u.IsAutoUpdateEnabled (determineSource u (u.IsEnabled s).2).2 = true
          ∨ u.Target (determineSource u (u.IsEnabled s).2).2 = emptyVersionStatus
          ∨ (u.Target (determineSource u (u.IsEnabled s).2).2).Source
              ≠ (determineSource u (u.IsEnabled s).2).1
        then 1 else 0) := by
    rw [probeCalls_run u now s hen, probeCalls_resolve, hsrc]
    simp [probeRequired, or_assoc]
  refine ⟨hcount, ?_⟩
  intro hdiff
  rw [hcount, if_pos (Or.inr (Or.inr hdiff))]

theorem run_tenant_registry_probe_count_witness :
    probeCalls (run (newDefaultUpdater false) 7
        { Source := CustomImageVersionSource, ImageID := "", Version := "",
          LastProbeTimestamp := some 5 }).calls = 1 :=
  (run_tenant_registry_probe_count (newDefaultUpdater false) 7
      { Source := CustomImageVersionSource, ImageID := "", Version := "",
        LastProbeTimestamp := some 5 } rfl rfl).2 (by decide)

/-- C4 (as stated, refuted): the default mock updater with auto-update
disabled and a target already populated from the tenant registry: the pass
makes no probe call, yet `LastProbeTimestamp` is now 7 and no longer 5; and
when `ValidateStatus` reports "invalid" the same pass returns that error. -/
theorem run_skip_writes_timestamp :
    probeCalls (run (newDefaultUpdater false) 7
        { Source := TenantRegistryVersionSource, ImageID := "", Version := "",
          LastProbeTimestamp := some 5 }).calls = 0 ∧
    ((newDefaultUpdater false).Target (run (newDefaultUpdater false) 7
        { Source := TenantRegistryVersionSource, ImageID := "", Version := "",
          LastProbeTimestamp := some 5 }).state).LastProbeTimestamp = some 7 ∧
    (run (newInvalidUpdater false "" "invalid") 7
        { Source := TenantRegistryVersionSource, ImageID := "", Version := "",
          LastProbeTimestamp := some 5 }).err = some "invalid" := by
  decide

/-- C4 (amended): for every enabled updater whose resolved source is the
tenant registry, with auto-update disabled and a `Target()` already populated
with that source, `run` returns what `ValidateStatus` reports, makes no call
of `UseTenantRegistry`, leaves version, image ID and source of `Target()` as
they were and sets `LastProbeTimestamp` to now. -/
theorem run_skip_when_populated {σ : Type} (u : StatusUpdater σ) (now : Nat) (s : σ)
    (hcell : u.TargetIsCell) (hen : (u.IsEnabled s).1 = true)
    (hsrc : (determineSource u (u.IsEnabled s).2).1 = TenantRegistryVersionSource)
    (hauto : u.IsAutoUpdateEnabled (determineSource u (u.IsEnabled s).2).2 = false)
    (hpop : (u.Target (determineSource u (u.IsEnabled s).2).2).Source
        = TenantRegistryVersionSource) :
    (run u now s).err = u.ValidateStatus (run u now s).state ∧
    probeCalls (run u now s).calls = 0 ∧
    u.Target (run u now s).state =
      { u.Target (determineSource u (u.IsEnabled s).2).2 with
        LastProbeTimestamp := some now } := by
  have hne : u.Target (determineSource u (u.IsEnabled s).2).2 ≠ emptyVersionStatus := by
    intro h
    rw [h] at hpop
    exact absurd hpop (by decide)
  have hreq : probeRequired u VersionSource.TenantRegistry
      (determineSource u (u.IsEnabled s).2).2 = false := by
    simp [probeRequired, hauto, hne, hpop]
  rw [run_of_enabled u now s hen, hsrc]
  simp only [resolve, hreq]
  simp [stamp, probeCalls, hcell _ _, ← hpop]

theorem run_skip_when_populated_witness :
    probeCalls (run (newDefaultUpdater false) 7
        { Source := TenantRegistryVersionSource, ImageID := "img", Version := "1.2.3.4-5",
          LastProbeTimestamp := some 5 }).calls = 0 :=
  (run_skip_when_populated (newDefaultUpdater false) 7
      { Source := TenantRegistryVersionSource, ImageID := "img", Version := "1.2.3.4-5",
        LastProbeTimestamp := some 5 } (fun _ _ => rfl) rfl rfl rfl rfl).2.1

/-! ## A pinned version is probed on every pass -/

/-- C5: for every enabled updater with empty `CustomImage()` and non-empty
`CustomVersion()`, `run` calls `UseTenantRegistry` exactly once, whatever the
auto-update flag and whatever `Target()` holds, and when it returns no error
`Target().Source` is the custom-version source. -/
theorem run_custom_version_always_probes {σ : Type} (u : StatusUpdater σ) (now : Nat) (s : σ)
    (hcell : u.TargetIsCell) (hen : (u.IsEnabled s).1 = true)
    (himg : (u.CustomImage (u.IsEnabled s).2).1 = "")
    (hver : u.CustomVersion (u.CustomImage (u.IsEnabled s).2).2 ≠ "") :
    probeCalls (run u now s).calls = 1 ∧
    ((run u now s).err = none →
      (u.Target (run u now s).state).Source = CustomVersionVersionSource) := by
  have hsrc : (determineSource u (u.IsEnabled s).2).1 = VersionSource.CustomVersion := by
    simp [determineSource, himg, hver]
  refine ⟨?_, ?_⟩
  · rw [probeCalls_run u now s hen, probeCalls_resolve, hsrc]
    simp [probeRequired]
  · rw [run_of_enabled u now s hen, hsrc]
    rcases resolve u VersionSource.CustomVersion (determineSource u (u.IsEnabled s).2).2
      with ⟨_ | e, s3, calls⟩
    · intro _
      simp [stamp, hcell _ _]
    · intro h
      simp at h

theorem run_custom_version_always_probes_witness :
    probeCalls (run (newCustomVersionUpdater "123" false) 7
        { Source := CustomVersionVersionSource, ImageID := "", Version := "",
          LastProbeTimestamp := some 5 }).calls = 1 ∧
    ((newCustomVersionUpdater "123" false).Target
      (run (newCustomVersionUpdater "123" false) 7
        { Source := CustomVersionVersionSource, ImageID := "", Version := "",
          LastProbeTimestamp := some 5 }).state).Source = CustomVersionVersionSource :=
  ⟨(run_custom_version_always_probes (newCustomVersionUpdater "123" false) 7
      { Source := CustomVersionVersionSource, ImageID := "", Version := "",
        LastProbeTimestamp := some 5 } (fun _ _ => rfl) rfl rfl (by decide)).1,
   (run_custom_version_always_probes (newCustomVersionUpdater "123" false) 7
      { Source := CustomVersionVersionSource, ImageID := "", Version := "",
        LastProbeTimestamp := some 5 } (fun _ _ => rfl) rfl rfl (by decide)).2 rfl⟩

/-! ## End to end on the concrete updaters -/

/-- C6 (as stated, refuted): the ActiveGate updater, enabled, with empty
status, auto-update enabled and nothing pinned, whose vendor probe returns
the empty version string: `run` returns the error of `ValidateStatus`. -/
theorem run_activeGate_empty_version_fails :
    (run (newActiveGateUpdater
          { GetLatestActiveGateVersion := Except.ok "", GetLatestAgentVersion := Except.ok "" }
          (fun v => "registry/linux/activegate:" ++ v))
        7 { emptyDynaKube with ActiveGateIsEnabled := true }).err
      = some "build version of ActiveGate image is not set" := by
  decide

/-- C6 (amended): one call of `run` on an enabled component with empty
`VersionStatus`, auto-update enabled, no custom image and no custom version,
whose vendor probe returns `v`, returns no error and leaves the tenant
registry as source, `v` as version and now as probe timestamp: for the
ActiveGate updater for every non-empty `v`, for the code-modules updater for
every `v`. -/
theorem run_end_to_end (dtClient : Client) (GetDefaultImage : String → String)
    (dk : DynaKube) (now : Nat) (v : String) :
    (dk.ActiveGateIsEnabled = true → dk.ActiveGateVersionStatus = emptyVersionStatus →
      dk.IsActiveGateUpdatesDisabled = false → dk.ActiveGateCustomImage = "" →
      dtClient.GetLatestActiveGateVersion = Except.ok v → v ≠ "" →
        (run (newActiveGateUpdater dtClient GetDefaultImage) now dk).err = none ∧
        (run (newActiveGateUpdater dtClient GetDefaultImage) now dk).state.ActiveGateVersionStatus
          = { Source := TenantRegistryVersionSource, ImageID := GetDefaultImage v,
              Version := v, LastProbeTimestamp := some now }) ∧
    (dk.IsAppInjectionNeeded = true → dk.CodeModulesVersionStatus = emptyVersionStatus →
      dk.CustomCodeModulesImage = "" → dk.CustomCodeModulesVersion = "" →
      dtClient.GetLatestAgentVersion = Except.ok v →
        (run (newCodeModulesUpdater dtClient) now dk).err = none ∧
        (run (newCodeModulesUpdater dtClient) now dk).state.CodeModulesVersionStatus
          = { Source := TenantRegistryVersionSource, ImageID := "",
              Version := v, LastProbeTimestamp := some now }) := by
  constructor
  · intro hen hempty hupd himg hprobe hv
    have hsrc : determineSource (newActiveGateUpdater dtClient GetDefaultImage) dk
        = (VersionSource.TenantRegistry, dk) := by
      simp [determineSource, newActiveGateUpdater, activeGateUpdater.CustomImage,
        activeGateUpdater.CustomVersion, himg]
    have hres : resolve (newActiveGateUpdater dtClient GetDefaultImage)
        VersionSource.TenantRegistry dk
        = (none,
           { dk with
             ActiveGateVersionStatus :=
               { emptyVersionStatus with ImageID := GetDefaultImage v, Version := v }
             Conditions := setVerifiedCondition dk.Conditions activeGateVersionConditionType },
           [Call.UseTenantRegistry, Call.CheckForDowngrade v]) := by
      simp [resolve, probeRequired, probe, newActiveGateUpdater,
        activeGateUpdater.IsAutoUpdateEnabled, activeGateUpdater.UseTenantRegistry,
        activeGateUpdater.Target, activeGateUpdater.setTarget,
        activeGateUpdater.CheckForDowngrade, updateVersionStatusForTenantRegistry,
        hupd, hprobe, hv, hempty]
    have hen' : ((newActiveGateUpdater dtClient GetDefaultImage).IsEnabled dk) = (true, dk) := by
      simp [newActiveGateUpdater, activeGateUpdater.IsEnabled, hen]
    rw [run_of_enabled _ now dk (by rw [hen'])]
    simp only [hen', hsrc, hres]
    simp [stamp, newActiveGateUpdater, activeGateUpdater.ValidateStatus,
      activeGateUpdater.Target, activeGateUpdater.setTarget, emptyVersionStatus, hv]
  · intro hen hempty himg hver hprobe
    have hsrc : determineSource (newCodeModulesUpdater dtClient) dk
        = (VersionSource.TenantRegistry, dk) := by
      simp [determineSource, newCodeModulesUpdater, codeModulesUpdater.CustomImage,
        codeModulesUpdater.CustomVersion, himg, hver]
    have hen' : ((newCodeModulesUpdater dtClient).IsEnabled dk) = (true, dk) := by
      simp [newCodeModulesUpdater, codeModulesUpdater.IsEnabled, hen]
    rw [run_of_enabled _ now dk (by rw [hen'])]
    simp only [hen', hsrc]
    by_cases hv : v = ""
    · simp [resolve, probeRequired, probe, stamp, newCodeModulesUpdater,
        codeModulesUpdater.IsAutoUpdateEnabled, codeModulesUpdater.UseTenantRegistry,
        codeModulesUpdater.Target, codeModulesUpdater.setTarget,
        codeModulesUpdater.CheckForDowngrade, codeModulesUpdater.ValidateStatus,
        codeModulesUpdater.CustomVersion, emptyVersionStatus, hver, hprobe, hv]
    · simp [resolve, probeRequired, probe, stamp, newCodeModulesUpdater,
        codeModulesUpdater.IsAutoUpdateEnabled, codeModulesUpdater.UseTenantRegistry,
        codeModulesUpdater.Target, codeModulesUpdater.setTarget,
        codeModulesUpdater.CheckForDowngrade, codeModulesUpdater.ValidateStatus,
        codeModulesUpdater.CustomVersion, emptyVersionStatus, hver, hprobe, hv]

theorem run_end_to_end_witness :
    (run (newActiveGateUpdater
          { GetLatestActiveGateVersion := Except.ok "1.2.3.4-5",
            GetLatestAgentVersion := Except.ok "1.2.3.4-5" }
          (fun v => "registry/linux/activegate:" ++ v))
        7 { emptyDynaKube with ActiveGateIsEnabled := true }).err = none ∧
    (run (newActiveGateUpdater
          { GetLatestActiveGateVersion := Except.ok "1.2.3.4-5",
            GetLatestAgentVersion := Except.ok "1.2.3.4-5" }
          (fun v => "registry/linux/activegate:" ++ v))
        7 { emptyDynaKube with ActiveGateIsEnabled := true }).state.ActiveGateVersionStatus
      = { Source := TenantRegistryVersionSource,
          ImageID := "registry/linux/activegate:" ++ "1.2.3.4-5",
          Version := "1.2.3.4-5", LastProbeTimestamp := some 7 } :=
  (run_end_to_end
      { GetLatestActiveGateVersion := Except.ok "1.2.3.4-5",
        GetLatestAgentVersion := Except.ok "1.2.3.4-5" }
      (fun v => "registry/linux/activegate:" ++ v)
      { emptyDynaKube with ActiveGateIsEnabled := true } 7 "1.2.3.4-5").1
    rfl rfl rfl rfl rfl (by decide)

/-! ## Errors of the probe and of the validation -/

/-- C7: for every enabled updater for which a probe is required and whose
`UseTenantRegistry` returns an error `e`, `run` returns `e`, the only call it
records is that of `UseTenantRegistry` (`ValidateStatus` is not called), and
the memory, hence `Target()` with its timestamp and source, is exactly as
`UseTenantRegistry` left it. -/
theorem run_probe_error {σ : Type} (u : StatusUpdater σ) (now : Nat) (s s3 : σ) (e : Error)
    (hen : (u.IsEnabled s).1 = true)
    (hsrc : (determineSource u (u.IsEnabled s).2).1 ≠ CustomImageVersionSource)
    (hreq : probeRequired u (determineSource u (u.IsEnabled s).2).1
        (determineSource u (u.IsEnabled s).2).2 = true)
    (hprobe : u.UseTenantRegistry (determineSource u (u.IsEnabled s).2).2 = (some e, s3)) :
    (run u now s).err = some e ∧
    (run u now s).state = s3 ∧
    (run u now s).calls = [Call.UseTenantRegistry] ∧
    Call.ValidateStatus ∉ (run u now s).calls ∧
    u.Target (run u now s).state = u.Target s3 := by
  have hres : resolve u (determineSource u (u.IsEnabled s).2).1
      (determineSource u (u.IsEnabled s).2).2 = (some e, s3, [Call.UseTenantRegistry]) := by
    have hp : probe u (determineSource u (u.IsEnabled s).2).2
        = (some e, s3, [Call.UseTenantRegistry]) := by
      simp [probe, hprobe]
    generalize determineSource u (u.IsEnabled s).2 = d at hsrc hreq hp ⊢
    rcases d with ⟨src, s2⟩
    cases src
    case CustomImage => exact absurd rfl hsrc
    all_goals
      simp only [resolve]
      simp only [] at hreq hp
      rw [if_pos hreq, hp]
  rw [run_of_enabled u now s hen, hres]
  simp

theorem run_probe_error_witness :
    (run newFailingUpdater 7 emptyVersionStatus).err = some "BOOM" ∧
    (run newFailingUpdater 7 emptyVersionStatus).state = emptyVersionStatus ∧
    (run newFailingUpdater 7 emptyVersionStatus).calls = [Call.UseTenantRegistry] ∧
    Call.ValidateStatus ∉ (run newFailingUpdater 7 emptyVersionStatus).calls ∧
    newFailingUpdater.Target (run newFailingUpdater 7 emptyVersionStatus).state
      = newFailingUpdater.Target emptyVersionStatus :=
  run_probe_error newFailingUpdater 7 emptyVersionStatus emptyVersionStatus "BOOM"
    rfl (by decide) rfl rfl

/-- C8: for every enabled updater whose resolution step (the probe, where one
is made) reports no error but whose `ValidateStatus` returns an error `e`,
`run` returns `e` and `Target()` nevertheless carries now as
`LastProbeTimestamp` and the resolved source as `Source`. -/
theorem run_validate_error_keeps_stamp {σ : Type} (u : StatusUpdater σ) (now : Nat) (s : σ)
    (e : Error) (hcell : u.TargetIsCell) (hen : (u.IsEnabled s).1 = true)
    (hres : (resolve u (determineSource u (u.IsEnabled s).2).1
        (determineSource u (u.IsEnabled s).2).2).1 = none)
    (hval : u.ValidateStatus (run u now s).state = some e) :
    (run u now s).err = some e ∧
    (u.Target (run u now s).state).LastProbeTimestamp = some now ∧
    (u.Target (run u now s).state).Source = (determineSource u (u.IsEnabled s).2).1 := by
  rw [run_of_enabled u now s hen] at hval ⊢
  rcases hr : resolve u (determineSource u (u.IsEnabled s).2).1
      (determineSource u (u.IsEnabled s).2).2 with ⟨_ | e', s3, calls⟩
  · rw [hr] at hval
    simp only [] at hval ⊢
    refine ⟨hval, ?_, ?_⟩ <;> simp [stamp, hcell _ _]
  · rw [hr] at hres
    simp at hres

theorem run_validate_error_keeps_stamp_witness :
    (run (newInvalidUpdater true "" "invalid") 7 emptyVersionStatus).err = some "invalid" ∧
    ((newInvalidUpdater true "" "invalid").Target
      (run (newInvalidUpdater true "" "invalid") 7 emptyVersionStatus).state).LastProbeTimestamp
        = some 7 ∧
    ((newInvalidUpdater true "" "invalid").Target
      (run (newInvalidUpdater true "" "invalid") 7 emptyVersionStatus).state).Source
        = (determineSource (newInvalidUpdater true "" "invalid")
            ((newInvalidUpdater true "" "invalid").IsEnabled emptyVersionStatus).2).1 :=
  run_validate_error_keeps_stamp (newInvalidUpdater true "" "invalid") 7 emptyVersionStatus
    "invalid" (fun _ _ => rfl) rfl rfl rfl

/-! ## Downgrade check of the concrete updaters -/

/-- C9 (as stated, refuted): with "2.0.0.0-0" recorded in `Target().Version`,
adopting the candidate "1.2.3.4-5" is a downgrade, yet `CheckForDowngrade` of
both concrete updaters answers false. -/
theorem checkForDowngrade_misses_downgrade :
    isDowngrade
      ((newActiveGateUpdater
          { GetLatestActiveGateVersion := Except.ok "", GetLatestAgentVersion := Except.ok "" }
          (fun v => v)).Target
        { emptyDynaKube with
          ActiveGateVersionStatus := { emptyVersionStatus with Version := "2.0.0.0-0" } }).Version
      "1.2.3.4-5" = Except.ok true ∧
    (newActiveGateUpdater
        { GetLatestActiveGateVersion := Except.ok "", GetLatestAgentVersion := Except.ok "" }
        (fun v => v)).CheckForDowngrade
      { emptyDynaKube with
        ActiveGateVersionStatus := { emptyVersionStatus with Version := "2.0.0.0-0" } }
      "1.2.3.4-5" = Except.ok false ∧
    isDowngrade
      ((newCodeModulesUpdater
          { GetLatestActiveGateVersion := Except.ok "",
            GetLatestAgentVersion := Except.ok "" }).Target
        { emptyDynaKube with
          CodeModulesVersionStatus := { emptyVersionStatus with Version := "2.0.0.0-0" } }).Version
      "1.2.3.4-5" = Except.ok true ∧
    (newCodeModulesUpdater
        { GetLatestActiveGateVersion := Except.ok "",
          GetLatestAgentVersion := Except.ok "" }).CheckForDowngrade
      { emptyDynaKube with
        CodeModulesVersionStatus := { emptyVersionStatus with Version := "2.0.0.0-0" } }
      "1.2.3.4-5" = Except.ok false :=
  ⟨rfl, rfl, rfl, rfl⟩

/-- C9 (amended): for each concrete updater, every DynaKube and every
candidate version string, `CheckForDowngrade` returns false and no error: it
never reports a downgrade, whatever version is recorded, and never fails,
also on a malformed version string. -/
theorem checkForDowngrade_always_false (dtClient : Client) (GetDefaultImage : String → String)
    (dk : DynaKube) (candidate : String) :
    (newActiveGateUpdater dtClient GetDefaultImage).CheckForDowngrade dk candidate
      = Except.ok false ∧
    (newCodeModulesUpdater dtClient).CheckForDowngrade dk candidate = Except.ok false :=
  ⟨rfl, rfl⟩

/-! ## Image reference parser -/

theorem splitAtFirst_of_not_mem (d : Char) (a : List Char) (h : d ∉ a) :
    splitAtFirst d a = (a, none) := by
  induction a with
  | nil => rfl
  | cons c cs ih =>
    have hc : c ≠ d := fun hcd => h (by simp [hcd])
    have hcs : d ∉ cs := fun hm => h (List.mem_cons_of_mem _ hm)
    simp [splitAtFirst, hc, ih hcs]

theorem splitAtFirst_append (d : Char) (a b : List Char) (h : d ∉ a) :
    splitAtFirst d (a ++ d :: b) = (a, some b) := by
  induction a with
  | nil => simp [splitAtFirst]
  | cons c cs ih =>
    have hc : c ≠ d := fun hcd => h (by simp [hcd])
    have hcs : d ∉ cs := fun hm => h (List.mem_cons_of_mem _ hm)
    simp [splitAtFirst, hc, ih hcs]

theorem splitAtLast_append (d : Char) (a b : List Char) (h : d ∉ b) :
    splitAtLast d (a ++ d :: b) = (a, some b) := by
  have hrev : (a ++ d :: b).reverse = b.reverse ++ d :: a.reverse := by simp
  have hb : d ∉ b.reverse := by simpa using h
  simp [splitAtLast, hrev, splitAtFirst_append d b.reverse a.reverse hb]

theorem tagOfName_append (repo tag : List Char) (hne : tag ≠ [])
    (hcolon : ':' ∉ tag) (hslash : '/' ∉ tag) :
    tagOfName (repo ++ ':' :: tag) = (String.mk tag, none) := by
  simp [tagOfName, splitAtLast_append ':' repo tag hcolon, hne, hslash]

theorem isSha256Digest_of_hex (hex : List Char) (hlen : hex.length = 64)
    (hall : ∀ c ∈ hex, isHexDigit c = true) :
    isSha256Digest ("sha256:".data ++ hex) = true := by
  have hdrop : ("sha256:".data ++ hex).drop 7 = hex := by
    simp [List.drop_append_eq_append_drop]
  have hpre : "sha256:".data.isPrefixOf ("sha256:".data ++ hex) = true := by
    simp
  simpa [isSha256Digest, hdrop, hlen, hpre] using hall

/-- C10: for every image ID `repository:tag` and
`repository:tag@sha256:<64 hex digits>`, where the tag is non-empty and free
of `:`, `/` and `@` (the literal "latest" included) and the repository is free
of `@`, `getTagFromImageID` returns exactly the tag and no error, with or
without the digest. -/
theorem getTagFromImageID_returns_tag (repository tag digest : String)
    (hrepo : '@' ∉ repository.data) (hne : tag ≠ "")
    (htag : ':' ∉ tag.data ∧ '/' ∉ tag.data ∧ '@' ∉ tag.data)
    (hlen : digest.length = 64) (hhex : ∀ c ∈ digest.data, isHexDigit c = true) :
    getTagFromImageID (repository ++ ":" ++ tag) = (tag, none) ∧
    getTagFromImageID (repository ++ ":" ++ tag ++ "@sha256:" ++ digest) = (tag, none) := by
  have hne' : tag.data ≠ [] := by
    intro h
    apply hne
    cases tag
    simp_all
  have hname : '@' ∉ repository.data ++ ':' :: tag.data := by
    simp [hrepo, htag.2.2]
  have hmk : String.mk tag.data = tag := rfl
  constructor
  · have hdata : (repository ++ ":" ++ tag).data = repository.data ++ ':' :: tag.data := by
      simp [String.data_append]
    simp only [getTagFromImageID, hdata, splitAtFirst_of_not_mem '@' _ hname]
    rw [tagOfName_append _ _ hne' htag.1 htag.2.1, hmk]
  · have hdata : (repository ++ ":" ++ tag ++ "@sha256:" ++ digest).data
        = (repository.data ++ ':' :: tag.data) ++ '@' :: ("sha256:".data ++ digest.data) := by
      simp [String.data_append]
    simp only [getTagFromImageID, hdata, splitAtFirst_append '@' _ _ hname]
    rw [isSha256Digest_of_hex digest.data hlen hhex]
    simp only [if_true]
    rw [tagOfName_append _ _ hne' htag.1 htag.2.1, hmk]

theorem getTagFromImageID_returns_tag_witness :
    getTagFromImageID ("some.registry.com" ++ ":" ++ "latest") = ("latest", none) ∧
    getTagFromImageID ("some.registry.com" ++ ":" ++ "latest" ++ "@sha256:" ++
        "7ece13a07a20c77a31cc36906a10ebc90bd47970905ee61e8ed491b7f4c5d62f")
      = ("latest", none) :=
  getTagFromImageID_returns_tag "some.registry.com" "latest"
    "7ece13a07a20c77a31cc36906a10ebc90bd47970905ee61e8ed491b7f4c5d62f"
    (by decide) (by decide) (by decide) (by decide) (by decide)


/-! ## Image references without a tag -/

theorem splitAtLast_of_not_mem (d : Char) (cs : List Char) (h : d ∉ cs) :
    splitAtLast d cs = (cs, none) := by
  have hr : d ∉ cs.reverse := by simpa using h
  simp [splitAtLast, splitAtFirst_of_not_mem d cs.reverse hr]

theorem tagOfName_of_no_colon (name : List Char) (h : ':' ∉ name) :
    tagOfName name = ("", some "no tag found") := by
  simp [tagOfName, splitAtLast_of_not_mem ':' name h]

/-- C11: for every image ID that carries no tag, `getTagFromImageID` returns
an error and the empty tag: the "no tag" error for a bare repository (no `:`
and no `@`) and for a digest-only reference `repository@sha256:<64 hex
digits>`, the parse error for a reference whose digest delimiter is not
followed by a valid digest. -/
theorem getTagFromImageID_no_tag (repository digest name junk : String)
    (hcolon : ':' ∉ repository.data) (hat : '@' ∉ repository.data)
    (hlen : digest.length = 64) (hhex : ∀ c ∈ digest.data, isHexDigit c = true)
    (hname : '@' ∉ name.data) (hjunk : isSha256Digest junk.data = false) :
    getTagFromImageID repository = ("", some "no tag found") ∧
    getTagFromImageID (repository ++ "@sha256:" ++ digest) = ("", some "no tag found") ∧
    getTagFromImageID (name ++ "@" ++ junk) = ("", some "could not parse reference") := by
  refine ⟨?_, ?_, ?_⟩
  · simp only [getTagFromImageID, splitAtFirst_of_not_mem '@' _ hat]
    exact tagOfName_of_no_colon _ hcolon
  · have hdata : (repository ++ "@sha256:" ++ digest).data
        = repository.data ++ '@' :: ("sha256:".data ++ digest.data) := by
      simp [String.data_append]
    simp only [getTagFromImageID, hdata, splitAtFirst_append '@' _ _ hat]
    rw [isSha256Digest_of_hex digest.data hlen hhex]
    simp only [if_true]
    exact tagOfName_of_no_colon _ hcolon
  · have hdata : (name ++ "@" ++ junk).data = name.data ++ '@' :: junk.data := by
      simp [String.data_append]
    simp only [getTagFromImageID, hdata, splitAtFirst_append '@' _ _ hname]
    simp [hjunk]

theorem getTagFromImageID_no_tag_witness :
    getTagFromImageID "some.registry.com" = ("", some "no tag found") ∧
    getTagFromImageID ("some.registry.com" ++ "@sha256:" ++
        "7ece13a07a20c77a31cc36906a10ebc90bd47970905ee61e8ed491b7f4c5d62f")
      = ("", some "no tag found") ∧
    getTagFromImageID ("some.registry.com" ++ "@" ++ "1.2.3")
      = ("", some "could not parse reference") :=
  getTagFromImageID_no_tag "some.registry.com"
    "7ece13a07a20c77a31cc36906a10ebc90bd47970905ee61e8ed491b7f4c5d62f"
    "some.registry.com" "1.2.3"
    (by decide) (by decide) (by decide) (by decide) (by decide) (by decide)

/-! ## `IsEnabled` of the concrete updaters -/

theorem RemoveStatusCondition_absent (conditions : List Condition) (conditionType : String) :
    ∀ c ∈ RemoveStatusCondition conditions conditionType, c.CondType ≠ conditionType := by
  intro c hc
  simpa [RemoveStatusCondition] using (List.mem_filter.mp hc).2

/-- C12: for every DynaKube, `activeGateUpdater.IsEnabled()` returns false
exactly when the ActiveGate is not enabled in the spec; then, whatever the
prior state, `Target()` is the zero `VersionStatus` afterwards and no
condition of type "ActiveGateVersion" remains; when it returns true the
DynaKube, so the `VersionStatus` and the conditions, is unchanged. -/
theorem activeGate_IsEnabled_cleanup (dtClient : Client) (GetDefaultImage : String → String)
    (dk : DynaKube) :
    (((newActiveGateUpdater dtClient GetDefaultImage).IsEnabled dk).1 = false
        ↔ dk.ActiveGateIsEnabled = false) ∧
    (((newActiveGateUpdater dtClient GetDefaultImage).IsEnabled dk).1 = false →
        (newActiveGateUpdater dtClient GetDefaultImage).Target
            ((newActiveGateUpdater dtClient GetDefaultImage).IsEnabled dk).2
          = emptyVersionStatus ∧
        ((newActiveGateUpdater dtClient GetDefaultImage).IsEnabled dk).2.ActiveGateVersionStatus
          = emptyVersionStatus ∧
        ∀ c ∈ ((newActiveGateUpdater dtClient GetDefaultImage).IsEnabled dk).2.Conditions,
          c.CondType ≠ "ActiveGateVersion") ∧
    (((newActiveGateUpdater dtClient GetDefaultImage).IsEnabled dk).1 = true →
        ((newActiveGateUpdater dtClient GetDefaultImage).IsEnabled dk).2 = dk) := by
  cases hen : dk.ActiveGateIsEnabled
  · simp only [newActiveGateUpdater, activeGateUpdater.IsEnabled, activeGateUpdater.Target, hen]
    refine ⟨by simp, ?_, by simp⟩
    intro _
    exact ⟨rfl, rfl, RemoveStatusCondition_absent dk.Conditions activeGateVersionConditionType⟩
  · simp [newActiveGateUpdater, activeGateUpdater.IsEnabled, hen]

theorem activeGate_IsEnabled_cleanup_witness :
    (activeGateUpdater.IsEnabled
        { emptyDynaKube with
          Conditions := [{ CondType := "ActiveGateVersion", Status := "True",
                           Reason := "VersionVerified", Message := "" }]
          ActiveGateVersionStatus :=
            { emptyVersionStatus with Version := "prev" } }).2.ActiveGateVersionStatus
      = emptyVersionStatus :=
  ((activeGate_IsEnabled_cleanup
      { GetLatestActiveGateVersion := Except.ok "", GetLatestAgentVersion := Except.ok "" }
      (fun v => v)
      { emptyDynaKube with
        Conditions := [{ CondType := "ActiveGateVersion", Status := "True",
                         Reason := "VersionVerified", Message := "" }]
        ActiveGateVersionStatus := { emptyVersionStatus with Version := "prev" } }).2.1
    rfl).2.1

/-- C13: for every DynaKube, `codeModulesUpdater.IsEnabled()` returns false
exactly when application injection is not needed; then, whatever the prior
state, `Target()` is the zero `VersionStatus` afterwards and no condition of
type "CodeModulesVersion" remains; when it returns true the DynaKube, so the
`VersionStatus` and the conditions, is unchanged. -/
theorem codeModules_IsEnabled_cleanup (dtClient : Client) (dk : DynaKube) :
    (((newCodeModulesUpdater dtClient).IsEnabled dk).1 = false
        ↔ dk.IsAppInjectionNeeded = false) ∧
    (((newCodeModulesUpdater dtClient).IsEnabled dk).1 = false →
        (newCodeModulesUpdater dtClient).Target ((newCodeModulesUpdater dtClient).IsEnabled dk).2
          = emptyVersionStatus ∧
        ((newCodeModulesUpdater dtClient).IsEnabled dk).2.CodeModulesVersionStatus
          = emptyVersionStatus ∧
        ∀ c ∈ ((newCodeModulesUpdater dtClient).IsEnabled dk).2.Conditions,
          c.CondType ≠ "CodeModulesVersion") ∧
    (((newCodeModulesUpdater dtClient).IsEnabled dk).1 = true →
        ((newCodeModulesUpdater dtClient).IsEnabled dk).2 = dk) := by
  cases hen : dk.IsAppInjectionNeeded
  · simp only [newCodeModulesUpdater, codeModulesUpdater.IsEnabled, codeModulesUpdater.Target,
      hen]
    refine ⟨by simp, ?_, by simp⟩
    intro _
    exact ⟨rfl, rfl, RemoveStatusCondition_absent dk.Conditions cmConditionType⟩
  · simp [newCodeModulesUpdater, codeModulesUpdater.IsEnabled, hen]

theorem codeModules_IsEnabled_cleanup_witness :
    (codeModulesUpdater.IsEnabled
        { emptyDynaKube with
          Conditions := [{ CondType := "CodeModulesVersion", Status := "True",
                           Reason := "VersionVerified", Message := "" }]
          CodeModulesVersionStatus :=
            { emptyVersionStatus with Version := "prev" } }).2.CodeModulesVersionStatus
      = emptyVersionStatus :=
  ((codeModules_IsEnabled_cleanup
      { GetLatestActiveGateVersion := Except.ok "", GetLatestAgentVersion := Except.ok "" }
      { emptyDynaKube with
        Conditions := [{ CondType := "CodeModulesVersion", Status := "True",
                         Reason := "VersionVerified", Message := "" }]
        CodeModulesVersionStatus := { emptyVersionStatus with Version := "prev" } }).2.1
    rfl).2.1

/-! ## `CustomImage` of the concrete updaters -/

theorem FindStatusCondition_SetStatusCondition (conditions : List Condition) (c : Condition) :
    FindStatusCondition (SetStatusCondition conditions c) c.CondType = some c := by
  induction conditions with
  | nil => simp [FindStatusCondition, SetStatusCondition]
  | cons d ds ih =>
    by_cases hd : d.CondType = c.CondType
    · simp [FindStatusCondition, SetStatusCondition, hd]
    · by_cases hany : ds.any (fun x => decide (x.CondType = c.CondType)) = true
      · have hset : SetStatusCondition ds c
            = ds.map (fun x => if x.CondType = c.CondType then c else x) := by
          simp only [SetStatusCondition, hany, if_true]
        have hset' : SetStatusCondition (d :: ds) c
            = d :: ds.map (fun x => if x.CondType = c.CondType then c else x) := by
          simp only [SetStatusCondition, List.any_cons, hany, Bool.or_true, if_true,
            List.map_cons, if_neg hd]
        rw [hset] at ih
        rw [hset']
        simpa [FindStatusCondition, hd] using ih
      · have hset : SetStatusCondition ds c = ds ++ [c] := by
          simp only [SetStatusCondition, hany]
          simp
        have hset' : SetStatusCondition (d :: ds) c = d :: (ds ++ [c]) := by
          simp only [SetStatusCondition, List.any_cons, hany, hd, decide_False,
            Bool.or_self]
          simp
        rw [hset] at ih
        rw [hset']
        simpa [FindStatusCondition, hd] using ih

/-- C14: for each concrete updater and every DynaKube, `CustomImage()`
returns the custom image pinned in the spec (the ActiveGate image,
respectively the custom code-modules image); when it is non-empty the
component's condition afterwards is the "verification skipped" one, when it
is empty the DynaKube with its conditions is unchanged, and `Target()` is the
same before and after the call. -/
theorem CustomImage_effect (dtClient : Client) (GetDefaultImage : String → String)
    (dk : DynaKube) :
    (((newActiveGateUpdater dtClient GetDefaultImage).CustomImage dk).1
        = dk.ActiveGateCustomImage ∧
      (((newActiveGateUpdater dtClient GetDefaultImage).CustomImage dk).1 ≠ "" →
        (FindStatusCondition
            ((newActiveGateUpdater dtClient GetDefaultImage).CustomImage dk).2.Conditions
            "ActiveGateVersion").map (fun c => c.Reason) = some "VerificationSkipped") ∧
      (((newActiveGateUpdater dtClient GetDefaultImage).CustomImage dk).1 = "" →
        ((newActiveGateUpdater dtClient GetDefaultImage).CustomImage dk).2 = dk) ∧
      (newActiveGateUpdater dtClient GetDefaultImage).Target
          ((newActiveGateUpdater dtClient GetDefaultImage).CustomImage dk).2
        = (newActiveGateUpdater dtClient GetDefaultImage).Target dk) ∧
    (((newCodeModulesUpdater dtClient).CustomImage dk).1 = dk.CustomCodeModulesImage ∧
      (((newCodeModulesUpdater dtClient).CustomImage dk).1 ≠ "" →
        (FindStatusCondition ((newCodeModulesUpdater dtClient).CustomImage dk).2.Conditions
            "CodeModulesVersion").map (fun c => c.Reason) = some "VerificationSkipped") ∧
      (((newCodeModulesUpdater dtClient).CustomImage dk).1 = "" →
        ((newCodeModulesUpdater dtClient).CustomImage dk).2 = dk) ∧
      (newCodeModulesUpdater dtClient).Target ((newCodeModulesUpdater dtClient).CustomImage dk).2
        = (newCodeModulesUpdater dtClient).Target dk) := by
  constructor
  · by_cases h : dk.ActiveGateCustomImage = ""
    · simp [newActiveGateUpdater, activeGateUpdater.CustomImage, activeGateUpdater.Target, h]
    · refine ⟨by simp [newActiveGateUpdater, activeGateUpdater.CustomImage, h], ?_,
        by simp [newActiveGateUpdater, activeGateUpdater.CustomImage, h],
        by simp [newActiveGateUpdater, activeGateUpdater.CustomImage,
          activeGateUpdater.Target, h]⟩
      intro _
      simp only [newActiveGateUpdater, activeGateUpdater.CustomImage, ne_eq, h,
        not_false_eq_true, if_true, setVerificationSkippedReasonCondition]
      have := FindStatusCondition_SetStatusCondition dk.Conditions
        { CondType := activeGateVersionConditionType, Status := "True",
          Reason := "VerificationSkipped",
          Message := "Version verification skipped, due to custom setup." }
      simp only [activeGateVersionConditionType] at this ⊢
      rw [this]
      rfl
  · by_cases h : dk.CustomCodeModulesImage = ""
    · simp [newCodeModulesUpdater, codeModulesUpdater.CustomImage, codeModulesUpdater.Target, h]
    · refine ⟨by simp [newCodeModulesUpdater, codeModulesUpdater.CustomImage, h], ?_,
        by simp [newCodeModulesUpdater, codeModulesUpdater.CustomImage, h],
        by simp [newCodeModulesUpdater, codeModulesUpdater.CustomImage,
          codeModulesUpdater.Target, h]⟩
      intro _
      simp only [newCodeModulesUpdater, codeModulesUpdater.CustomImage, ne_eq, h,
        not_false_eq_true, if_true, setVerificationSkippedReasonCondition]
      have := FindStatusCondition_SetStatusCondition dk.Conditions
        { CondType := cmConditionType, Status := "True",
          Reason := "VerificationSkipped",
          Message := "Version verification skipped, due to custom setup." }
      simp only [cmConditionType] at this ⊢
      rw [this]
      rfl

theorem CustomImage_effect_witness :
    (FindStatusCondition
        (activeGateUpdater.CustomImage
          { emptyDynaKube with ActiveGateCustomImage := "some.registry.com:1.2.3.4-5" }).2.Conditions
        "ActiveGateVersion").map (fun c => c.Reason) = some "VerificationSkipped" :=
  (CustomImage_effect
      { GetLatestActiveGateVersion := Except.ok "", GetLatestAgentVersion := Except.ok "" }
      (fun v => v)
      { emptyDynaKube with ActiveGateCustomImage := "some.registry.com:1.2.3.4-5" }).1.2.1
    (by decide)

/-! ## `ValidateStatus` and `UseTenantRegistry` of the concrete updaters -/

/-- C15: for every DynaKube, `activeGateUpdater.ValidateStatus()` returns an
error if and only if `Target().Version` is the empty string. The method reads
the DynaKube and writes nothing, so its embedding returns the error alone. -/
theorem activeGate_ValidateStatus_iff (dtClient : Client) (GetDefaultImage : String → String)
    (dk : DynaKube) :
    ((newActiveGateUpdater dtClient GetDefaultImage).ValidateStatus dk ≠ none ↔
      ((newActiveGateUpdater dtClient GetDefaultImage).Target dk).Version = "") ∧
    ((newActiveGateUpdater dtClient GetDefaultImage).ValidateStatus dk ≠ none →
      (newActiveGateUpdater dtClient GetDefaultImage).ValidateStatus dk
        = some "build version of ActiveGate image is not set") := by
  by_cases h : dk.ActiveGateVersionStatus.Version = ""
  · simp [newActiveGateUpdater, activeGateUpdater.ValidateStatus, activeGateUpdater.Target, h]
  · simp [newActiveGateUpdater, activeGateUpdater.ValidateStatus, activeGateUpdater.Target, h]

theorem activeGate_ValidateStatus_iff_witness :
    activeGateUpdater.ValidateStatus emptyDynaKube
      = some "build version of ActiveGate image is not set" :=
  (activeGate_ValidateStatus_iff
      { GetLatestActiveGateVersion := Except.ok "", GetLatestAgentVersion := Except.ok "" }
      (fun v => v) emptyDynaKube).2 (by decide)

/-- C16: for each concrete updater (for the code-modules updater when no
custom version is set), whenever the vendor client's latest-version call
fails with error `e`, `UseTenantRegistry` returns exactly `e` and leaves
`Target()`, that is version, image ID, source and probe timestamp,
unchanged. -/
theorem UseTenantRegistry_api_error (dtClient : Client) (GetDefaultImage : String → String)
    (dk : DynaKube) (e : Error) :
    (dtClient.GetLatestActiveGateVersion = Except.error e →
      ((newActiveGateUpdater dtClient GetDefaultImage).UseTenantRegistry dk).1 = some e ∧
      (newActiveGateUpdater dtClient GetDefaultImage).Target
          ((newActiveGateUpdater dtClient GetDefaultImage).UseTenantRegistry dk).2
        = (newActiveGateUpdater dtClient GetDefaultImage).Target dk) ∧
    (dk.CustomCodeModulesVersion = "" → dtClient.GetLatestAgentVersion = Except.error e →
      ((newCodeModulesUpdater dtClient).UseTenantRegistry dk).1 = some e ∧
      (newCodeModulesUpdater dtClient).Target
          ((newCodeModulesUpdater dtClient).UseTenantRegistry dk).2
        = (newCodeModulesUpdater dtClient).Target dk) := by
  constructor
  · intro h
    simp [newActiveGateUpdater, activeGateUpdater.UseTenantRegistry,
      activeGateUpdater.Target, h]
  · intro hv h
    simp [newCodeModulesUpdater, codeModulesUpdater.UseTenantRegistry,
      codeModulesUpdater.CustomVersion, codeModulesUpdater.Target, hv, h]

theorem UseTenantRegistry_api_error_witness :
    ((newActiveGateUpdater
        { GetLatestActiveGateVersion := Except.error "BOOM",
          GetLatestAgentVersion := Except.error "BOOM" }
        (fun v => v)).UseTenantRegistry
      { emptyDynaKube with
        ActiveGateVersionStatus := { emptyVersionStatus with Version := "prev" } }).1
      = some "BOOM" ∧
    ((newCodeModulesUpdater
        { GetLatestActiveGateVersion := Except.error "BOOM",
          GetLatestAgentVersion := Except.error "BOOM" }).UseTenantRegistry
      { emptyDynaKube with
        CodeModulesVersionStatus := { emptyVersionStatus with Version := "prev" } }).1
      = some "BOOM" :=
  ⟨((UseTenantRegistry_api_error
      { GetLatestActiveGateVersion := Except.error "BOOM",
        GetLatestAgentVersion := Except.error "BOOM" }
      (fun v => v)
      { emptyDynaKube with
        ActiveGateVersionStatus := { emptyVersionStatus with Version := "prev" } }
      "BOOM").1 rfl).1,
   ((UseTenantRegistry_api_error
      { GetLatestActiveGateVersion := Except.error "BOOM",
        GetLatestAgentVersion := Except.error "BOOM" }
      (fun v => v)
      { emptyDynaKube with
        CodeModulesVersionStatus := { emptyVersionStatus with Version := "prev" } }
      "BOOM").2 rfl rfl).1⟩

/-- C17: for every version string `v` that the vendor client's
`GetLatestActiveGateVersion` returns without error, and every prior status,
`activeGateUpdater.UseTenantRegistry` returns no error and leaves
`Target().Version = v` and `Target().ImageID` the ActiveGate default image
for `v`. -/
theorem activeGate_UseTenantRegistry_success (dtClient : Client)
    (GetDefaultImage : String → String) (dk : DynaKube) (v : String)
    (h : dtClient.GetLatestActiveGateVersion = Except.ok v) :
    ((newActiveGateUpdater dtClient GetDefaultImage).UseTenantRegistry dk).1 = none ∧
    ((newActiveGateUpdater dtClient GetDefaultImage).Target
        ((newActiveGateUpdater dtClient GetDefaultImage).UseTenantRegistry dk).2).Version = v ∧
    ((newActiveGateUpdater dtClient GetDefaultImage).Target
        ((newActiveGateUpdater dtClient GetDefaultImage).UseTenantRegistry dk).2).ImageID
      = GetDefaultImage v := by
  simp [newActiveGateUpdater, activeGateUpdater.UseTenantRegistry, activeGateUpdater.Target,
    activeGateUpdater.setTarget, updateVersionStatusForTenantRegistry, h]

theorem activeGate_UseTenantRegistry_success_witness :
    ((newActiveGateUpdater
        { GetLatestActiveGateVersion := Except.ok "1.2.3.4-5",
          GetLatestAgentVersion := Except.ok "1.2.3.4-5" }
        (fun v => "registry/linux/activegate:" ++ v)).UseTenantRegistry
      { emptyDynaKube with
        ActiveGateVersionStatus := { emptyVersionStatus with Version := "prev" } }).1 = none ∧
    ((newActiveGateUpdater
        { GetLatestActiveGateVersion := Except.ok "1.2.3.4-5",
          GetLatestAgentVersion := Except.ok "1.2.3.4-5" }
        (fun v => "registry/linux/activegate:" ++ v)).Target
      ((newActiveGateUpdater
        { GetLatestActiveGateVersion := Except.ok "1.2.3.4-5",
          GetLatestAgentVersion := Except.ok "1.2.3.4-5" }
        (fun v => "registry/linux/activegate:" ++ v)).UseTenantRegistry
      { emptyDynaKube with
        ActiveGateVersionStatus := { emptyVersionStatus with Version := "prev" } }).2).Version
      = "1.2.3.4-5" ∧
    ((newActiveGateUpdater
        { GetLatestActiveGateVersion := Except.ok "1.2.3.4-5",
          GetLatestAgentVersion := Except.ok "1.2.3.4-5" }
        (fun v => "registry/linux/activegate:" ++ v)).Target
      ((newActiveGateUpdater
        { GetLatestActiveGateVersion := Except.ok "1.2.3.4-5",
          GetLatestAgentVersion := Except.ok "1.2.3.4-5" }
        (fun v => "registry/linux/activegate:" ++ v)).UseTenantRegistry
      { emptyDynaKube with
        ActiveGateVersionStatus := { emptyVersionStatus with Version := "prev" } }).2).ImageID
      = (fun v => "registry/linux/activegate:" ++ v) "1.2.3.4-5" :=
  activeGate_UseTenantRegistry_success
    { GetLatestActiveGateVersion := Except.ok "1.2.3.4-5",
      GetLatestAgentVersion := Except.ok "1.2.3.4-5" }
    (fun v => "registry/linux/activegate:" ++ v)
    { emptyDynaKube with
      ActiveGateVersionStatus := { emptyVersionStatus with Version := "prev" } }
    "1.2.3.4-5" rfl

/-! ## Invariants of the status: probe timestamp and source -/

/-- C18 (as stated, refuted): with probe timestamp 5 recorded, a successful
`codeModulesUpdater.UseTenantRegistry` and `IsEnabled` of either updater on a
disabled component leave the nil timestamp, which is earlier than 5. -/
theorem timestamp_reset_by_updaters :
    timestampLe
      ((newCodeModulesUpdater
          { GetLatestActiveGateVersion := Except.ok "1.2.3.4-5",
            GetLatestAgentVersion := Except.ok "1.2.3.4-5" }).Target
        { emptyDynaKube with
          IsAppInjectionNeeded := true
          CodeModulesVersionStatus :=
            { Source := TenantRegistryVersionSource, ImageID := "", Version := "1.2.3.4-4",
              LastProbeTimestamp := some 5 } }).LastProbeTimestamp
      ((newCodeModulesUpdater
          { GetLatestActiveGateVersion := Except.ok "1.2.3.4-5",
            GetLatestAgentVersion := Except.ok "1.2.3.4-5" }).Target
        ((newCodeModulesUpdater
          { GetLatestActiveGateVersion := Except.ok "1.2.3.4-5",
            GetLatestAgentVersion := Except.ok "1.2.3.4-5" }).UseTenantRegistry
          { emptyDynaKube with
            IsAppInjectionNeeded := true
            CodeModulesVersionStatus :=
              { Source := TenantRegistryVersionSource, ImageID := "", Version := "1.2.3.4-4",
                LastProbeTimestamp := some 5 } }).2).LastProbeTimestamp
      = false ∧
    timestampLe
      (activeGateUpdater.Target
        { emptyDynaKube with
          ActiveGateVersionStatus :=
            { Source := TenantRegistryVersionSource, ImageID := "", Version := "1.2.3.4-4",
              LastProbeTimestamp := some 5 } }).LastProbeTimestamp
      (activeGateUpdater.Target
        (activeGateUpdater.IsEnabled
          { emptyDynaKube with
            ActiveGateVersionStatus :=
              { Source := TenantRegistryVersionSource, ImageID := "", Version := "1.2.3.4-4",
                LastProbeTimestamp := some 5 } }).2).LastProbeTimestamp
      = false ∧
    timestampLe
      (codeModulesUpdater.Target
        { emptyDynaKube with
          CodeModulesVersionStatus :=
            { Source := TenantRegistryVersionSource, ImageID := "", Version := "1.2.3.4-4",
              LastProbeTimestamp := some 5 } }).LastProbeTimestamp
      (codeModulesUpdater.Target
        (codeModulesUpdater.IsEnabled
          { emptyDynaKube with
            CodeModulesVersionStatus :=
              { Source := TenantRegistryVersionSource, ImageID := "", Version := "1.2.3.4-4",
                LastProbeTimestamp := some 5 } }).2).LastProbeTimestamp
      = false :=
  ⟨rfl, rfl, rfl⟩

/-- C18 (amended): for every state, `Target().LastProbeTimestamp` after an
operation of the concrete updaters is either what it was before or nil: it is
unchanged by `CustomImage` of both updaters, by
`activeGateUpdater.UseTenantRegistry`, by `IsEnabled` returning true and by a
failing `codeModulesUpdater.UseTenantRegistry`; it is nil after `IsEnabled`
returning false and after a successful
`codeModulesUpdater.UseTenantRegistry`. -/
theorem timestamp_after_updater_operations (dtClient : Client)
    (GetDefaultImage : String → String) (dk : DynaKube) :
    ((newActiveGateUpdater dtClient GetDefaultImage).Target
        ((newActiveGateUpdater dtClient GetDefaultImage).CustomImage dk).2).LastProbeTimestamp
      = ((newActiveGateUpdater dtClient GetDefaultImage).Target dk).LastProbeTimestamp ∧
    ((newCodeModulesUpdater dtClient).Target
        ((newCodeModulesUpdater dtClient).CustomImage dk).2).LastProbeTimestamp
      = ((newCodeModulesUpdater dtClient).Target dk).LastProbeTimestamp ∧
    ((newActiveGateUpdater dtClient GetDefaultImage).Target
        ((newActiveGateUpdater dtClient GetDefaultImage).UseTenantRegistry dk).2).LastProbeTimestamp
      = ((newActiveGateUpdater dtClient GetDefaultImage).Target dk).LastProbeTimestamp ∧
    ((newActiveGateUpdater dtClient GetDefaultImage).Target
        ((newActiveGateUpdater dtClient GetDefaultImage).IsEnabled dk).2).LastProbeTimestamp
      = (if ((newActiveGateUpdater dtClient GetDefaultImage).IsEnabled dk).1 = true
          then ((newActiveGateUpdater dtClient GetDefaultImage).Target dk).LastProbeTimestamp
          else none) ∧
    ((newCodeModulesUpdater dtClient).Target
        ((newCodeModulesUpdater dtClient).IsEnabled dk).2).LastProbeTimestamp
      = (if ((newCodeModulesUpdater dtClient).IsEnabled dk).1 = true
          then ((newCodeModulesUpdater dtClient).Target dk).LastProbeTimestamp
          else none) ∧
    ((newCodeModulesUpdater dtClient).Target
        ((newCodeModulesUpdater dtClient).UseTenantRegistry dk).2).LastProbeTimestamp
      = (if ((newCodeModulesUpdater dtClient).UseTenantRegistry dk).1 = none
          then none
          else ((newCodeModulesUpdater dtClient).Target dk).LastProbeTimestamp) := by
  refine ⟨?_, ?_, ?_, ?_, ?_, ?_⟩
  · by_cases h : dk.ActiveGateCustomImage = "" <;>
      simp [newActiveGateUpdater, activeGateUpdater.CustomImage, activeGateUpdater.Target, h]
  · by_cases h : dk.CustomCodeModulesImage = "" <;>
      simp [newCodeModulesUpdater, codeModulesUpdater.CustomImage, codeModulesUpdater.Target, h]
  · rcases h : dtClient.GetLatestActiveGateVersion with e | v <;>
      simp [newActiveGateUpdater, activeGateUpdater.UseTenantRegistry,
        activeGateUpdater.Target, activeGateUpdater.setTarget,
        updateVersionStatusForTenantRegistry, h]
  · cases h : dk.ActiveGateIsEnabled <;>
      simp [newActiveGateUpdater, activeGateUpdater.IsEnabled, activeGateUpdater.Target,
        emptyVersionStatus, h]
  · cases h : dk.IsAppInjectionNeeded <;>
      simp [newCodeModulesUpdater, codeModulesUpdater.IsEnabled, codeModulesUpdater.Target,
        emptyVersionStatus, h]
  · by_cases hv : dk.CustomCodeModulesVersion = ""
    · rcases h : dtClient.GetLatestAgentVersion with e | v <;>
        simp [newCodeModulesUpdater, codeModulesUpdater.UseTenantRegistry,
          codeModulesUpdater.CustomVersion, codeModulesUpdater.Target, emptyVersionStatus,
          hv, h]
    · simp [newCodeModulesUpdater, codeModulesUpdater.UseTenantRegistry,
        codeModulesUpdater.CustomVersion, codeModulesUpdater.Target, emptyVersionStatus, hv]

theorem activeGate_TargetIsCell (dtClient : Client) (GetDefaultImage : String → String) :
    (newActiveGateUpdater dtClient GetDefaultImage).TargetIsCell :=
  fun _ _ => rfl

theorem codeModules_TargetIsCell (dtClient : Client) :
    (newCodeModulesUpdater dtClient).TargetIsCell :=
  fun _ _ => rfl

theorem determineSource_ne_unset {σ : Type} (u : StatusUpdater σ) (s : σ) :
    (determineSource u s).1 = CustomImageVersionSource ∨
    (determineSource u s).1 = CustomVersionVersionSource ∨
    (determineSource u s).1 = TenantRegistryVersionSource := by
  simp only [determineSource]
  split_ifs <;> simp

theorem run_success_source {σ : Type} (u : StatusUpdater σ) (now : Nat) (s : σ)
    (hcell : u.TargetIsCell) (hen : (u.IsEnabled s).1 = true)
    (herr : (run u now s).err = none) :
    (u.Target (run u now s).state).Source = (determineSource u (u.IsEnabled s).2).1 := by
  rw [run_of_enabled u now s hen] at herr ⊢
  rcases hr : resolve u (determineSource u (u.IsEnabled s).2).1
      (determineSource u (u.IsEnabled s).2).2 with ⟨_ | e, s3, calls⟩
  · simp [stamp, hcell _ _]
  · rw [hr] at herr
    simp at herr

theorem run_of_disabled {σ : Type} (u : StatusUpdater σ) (now : Nat) (s : σ)
    (hen : (u.IsEnabled s).1 = false) :
    run u now s = { err := none, state := (u.IsEnabled s).2, calls := [] } := by
  simp [run, hen]

theorem activeGate_disabled_target (dtClient : Client) (GetDefaultImage : String → String)
    (dk : DynaKube)
    (hen : ((newActiveGateUpdater dtClient GetDefaultImage).IsEnabled dk).1 = false) :
    (newActiveGateUpdater dtClient GetDefaultImage).Target
        ((newActiveGateUpdater dtClient GetDefaultImage).IsEnabled dk).2
      = emptyVersionStatus := by
  cases h : dk.ActiveGateIsEnabled
  · simp [newActiveGateUpdater, activeGateUpdater.IsEnabled, activeGateUpdater.Target, h]
  · simp [newActiveGateUpdater, activeGateUpdater.IsEnabled, h] at hen

theorem codeModules_disabled_target (dtClient : Client) (dk : DynaKube)
    (hen : ((newCodeModulesUpdater dtClient).IsEnabled dk).1 = false) :
    (newCodeModulesUpdater dtClient).Target ((newCodeModulesUpdater dtClient).IsEnabled dk).2
      = emptyVersionStatus := by
  cases h : dk.IsAppInjectionNeeded
  · simp [newCodeModulesUpdater, codeModulesUpdater.IsEnabled, codeModulesUpdater.Target, h]
  · simp [newCodeModulesUpdater, codeModulesUpdater.IsEnabled, h] at hen

/-- C19 (as stated, refuted): a successful `UseTenantRegistry` of the
code-modules updater leaves the non-empty status with version "1.2.3.4-5" and
the empty source; a successful `UseTenantRegistry` of the ActiveGate updater,
on a status recorded from a custom image that is no longer pinned, leaves the
custom-image source although the tenant registry is the source determined
for the pass. -/
theorem UseTenantRegistry_leaves_source :
    ((newCodeModulesUpdater
        { GetLatestActiveGateVersion := Except.ok "1.2.3.4-5",
          GetLatestAgentVersion := Except.ok "1.2.3.4-5" }).UseTenantRegistry
      { emptyDynaKube with IsAppInjectionNeeded := true }).1 = none ∧
    (newCodeModulesUpdater
        { GetLatestActiveGateVersion := Except.ok "1.2.3.4-5",
          GetLatestAgentVersion := Except.ok "1.2.3.4-5" }).Target
      ((newCodeModulesUpdater
        { GetLatestActiveGateVersion := Except.ok "1.2.3.4-5",
          GetLatestAgentVersion := Except.ok "1.2.3.4-5" }).UseTenantRegistry
      { emptyDynaKube with IsAppInjectionNeeded := true }).2
      = { Source := VersionSource.Unset, ImageID := "", Version := "1.2.3.4-5",
          LastProbeTimestamp := none } ∧
    ((newActiveGateUpdater
        { GetLatestActiveGateVersion := Except.ok "1.2.3.4-5",
          GetLatestAgentVersion := Except.ok "1.2.3.4-5" }
        (fun v => "registry/linux/activegate:" ++ v)).UseTenantRegistry
      { emptyDynaKube with
        ActiveGateIsEnabled := true
        ActiveGateVersionStatus :=
          { Source := CustomImageVersionSource, ImageID := "my.special.image",
            Version := "custom-image", LastProbeTimestamp := some 5 } }).1 = none ∧
    ((newActiveGateUpdater
        { GetLatestActiveGateVersion := Except.ok "1.2.3.4-5",
          GetLatestAgentVersion := Except.ok "1.2.3.4-5" }
        (fun v => "registry/linux/activegate:" ++ v)).Target
      ((newActiveGateUpdater
        { GetLatestActiveGateVersion := Except.ok "1.2.3.4-5",
          GetLatestAgentVersion := Except.ok "1.2.3.4-5" }
        (fun v => "registry/linux/activegate:" ++ v)).UseTenantRegistry
      { emptyDynaKube with
        ActiveGateIsEnabled := true
        ActiveGateVersionStatus :=
          { Source := CustomImageVersionSource, ImageID := "my.special.image",
            Version := "custom-image", LastProbeTimestamp := some 5 } }).2).Source
      = CustomImageVersionSource ∧
    (determineSource
      (newActiveGateUpdater
        { GetLatestActiveGateVersion := Except.ok "1.2.3.4-5",
          GetLatestAgentVersion := Except.ok "1.2.3.4-5" }
        (fun v => "registry/linux/activegate:" ++ v))
      { emptyDynaKube with
        ActiveGateIsEnabled := true
        ActiveGateVersionStatus :=
          { Source := CustomImageVersionSource, ImageID := "my.special.image",
            Version := "custom-image", LastProbeTimestamp := some 5 } }).1
      = TenantRegistryVersionSource := by
  decide

/-- C19 (amended): whenever a successful `run` of either concrete updater
leaves a non-empty `VersionStatus` in `Target()`, `Target().Source` is the
source determined for that pass, one of custom image, custom version and
tenant registry. `UseTenantRegistry` alone does not write the source: after a
successful call the code-modules updater has the empty source and the
ActiveGate updater the source recorded before. -/
theorem source_after_successful_run (dtClient : Client) (GetDefaultImage : String → String)
    (dk : DynaKube) (now : Nat) :
    ((run (newActiveGateUpdater dtClient GetDefaultImage) now dk).err = none →
      (newActiveGateUpdater dtClient GetDefaultImage).Target
          (run (newActiveGateUpdater dtClient GetDefaultImage) now dk).state
        ≠ emptyVersionStatus →
      ((newActiveGateUpdater dtClient GetDefaultImage).Target
          (run (newActiveGateUpdater dtClient GetDefaultImage) now dk).state).Source
        = (determineSource (newActiveGateUpdater dtClient GetDefaultImage)
            ((newActiveGateUpdater dtClient GetDefaultImage).IsEnabled dk).2).1 ∧
      (((newActiveGateUpdater dtClient GetDefaultImage).Target
          (run (newActiveGateUpdater dtClient GetDefaultImage) now dk).state).Source
          = CustomImageVersionSource ∨
        ((newActiveGateUpdater dtClient GetDefaultImage).Target
          (run (newActiveGateUpdater dtClient GetDefaultImage) now dk).state).Source
          = CustomVersionVersionSource ∨
        ((newActiveGateUpdater dtClient GetDefaultImage).Target
          (run (newActiveGateUpdater dtClient GetDefaultImage) now dk).state).Source
          = TenantRegistryVersionSource)) ∧
    ((run (newCodeModulesUpdater dtClient) now dk).err = none →
      (newCodeModulesUpdater dtClient).Target (run (newCodeModulesUpdater dtClient) now dk).state
        ≠ emptyVersionStatus →
      ((newCodeModulesUpdater dtClient).Target
          (run (newCodeModulesUpdater dtClient) now dk).state).Source
        = (determineSource (newCodeModulesUpdater dtClient)
            ((newCodeModulesUpdater dtClient).IsEnabled dk).2).1 ∧
      (((newCodeModulesUpdater dtClient).Target
          (run (newCodeModulesUpdater dtClient) now dk).state).Source
          = CustomImageVersionSource ∨
        ((newCodeModulesUpdater dtClient).Target
          (run (newCodeModulesUpdater dtClient) now dk).state).Source
          = CustomVersionVersionSource ∨
        ((newCodeModulesUpdater dtClient).Target
          (run (newCodeModulesUpdater dtClient) now dk).state).Source
          = TenantRegistryVersionSource)) ∧
    (((newCodeModulesUpdater dtClient).UseTenantRegistry dk).1 = none →
      ((newCodeModulesUpdater dtClient).Target
          ((newCodeModulesUpdater dtClient).UseTenantRegistry dk).2).Source
        = VersionSource.Unset) ∧
    ((newActiveGateUpdater dtClient GetDefaultImage).Target
        ((newActiveGateUpdater dtClient GetDefaultImage).UseTenantRegistry dk).2).Source
      = ((newActiveGateUpdater dtClient GetDefaultImage).Target dk).Source := by
  refine ⟨?_, ?_, ?_, ?_⟩
  · intro herr hne
    cases hen : ((newActiveGateUpdater dtClient GetDefaultImage).IsEnabled dk).1
    · exfalso
      apply hne
      rw [run_of_disabled _ now dk hen]
      exact activeGate_disabled_target dtClient GetDefaultImage dk hen
    · have hs := run_success_source _ now dk
        (activeGate_TargetIsCell dtClient GetDefaultImage) hen herr
      refine ⟨hs, ?_⟩
      rw [hs]
      exact determineSource_ne_unset _ _
  · intro herr hne
    cases hen : ((newCodeModulesUpdater dtClient).IsEnabled dk).1
    · exfalso
      apply hne
      rw [run_of_disabled _ now dk hen]
      exact codeModules_disabled_target dtClient dk hen
    · have hs := run_success_source _ now dk (codeModules_TargetIsCell dtClient) hen herr
      refine ⟨hs, ?_⟩
      rw [hs]
      exact determineSource_ne_unset _ _
  · by_cases hv : dk.CustomCodeModulesVersion = ""
    · rcases h : dtClient.GetLatestAgentVersion with e | v <;>
        simp [newCodeModulesUpdater, codeModulesUpdater.UseTenantRegistry,
          codeModulesUpdater.CustomVersion, codeModulesUpdater.Target, emptyVersionStatus,
          hv, h]
    · simp [newCodeModulesUpdater, codeModulesUpdater.UseTenantRegistry,
        codeModulesUpdater.CustomVersion, codeModulesUpdater.Target, emptyVersionStatus, hv]
  · rcases h : dtClient.GetLatestActiveGateVersion with e | v <;>
      simp [newActiveGateUpdater, activeGateUpdater.UseTenantRegistry,
        activeGateUpdater.Target, activeGateUpdater.setTarget,
        updateVersionStatusForTenantRegistry, h]

theorem source_after_successful_run_witness :
    ((newActiveGateUpdater
        { GetLatestActiveGateVersion := Except.ok "1.2.3.4-5",
          GetLatestAgentVersion := Except.ok "1.2.3.4-5" }
        (fun v => "registry/linux/activegate:" ++ v)).Target
      (run (newActiveGateUpdater
        { GetLatestActiveGateVersion := Except.ok "1.2.3.4-5",
          GetLatestAgentVersion := Except.ok "1.2.3.4-5" }
        (fun v => "registry/linux/activegate:" ++ v)) 7
      { emptyDynaKube with
        ActiveGateIsEnabled := true
        ActiveGateVersionStatus :=
          { Source := CustomImageVersionSource, ImageID := "my.special.image",
            Version := "custom-image", LastProbeTimestamp := some 5 } }).state).Source
      = (determineSource
          (newActiveGateUpdater
            { GetLatestActiveGateVersion := Except.ok "1.2.3.4-5",
              GetLatestAgentVersion := Except.ok "1.2.3.4-5" }
            (fun v => "registry/linux/activegate:" ++ v))
          ((newActiveGateUpdater
            { GetLatestActiveGateVersion := Except.ok "1.2.3.4-5",
              GetLatestAgentVersion := Except.ok "1.2.3.4-5" }
            (fun v => "registry/linux/activegate:" ++ v)).IsEnabled
            { emptyDynaKube with
              ActiveGateIsEnabled := true
              ActiveGateVersionStatus :=
                { Source := CustomImageVersionSource, ImageID := "my.special.image",
                  Version := "custom-image", LastProbeTimestamp := some 5 } }).2).1 :=
  ((source_after_successful_run
      { GetLatestActiveGateVersion := Except.ok "1.2.3.4-5",
        GetLatestAgentVersion := Except.ok "1.2.3.4-5" }
      (fun v => "registry/linux/activegate:" ++ v)
      { emptyDynaKube with
        ActiveGateIsEnabled := true
        ActiveGateVersionStatus :=
          { Source := CustomImageVersionSource, ImageID := "my.special.image",
            Version := "custom-image", LastProbeTimestamp := some 5 } } 7).1
    (by decide) (by decide)).1

end Version

/-! ## The ActiveGate API client -/

namespace activegate

/-- C20: for every outcome of the connection-info request: if the request
fails, `GetConnectionInfo` returns the zero `ConnectionInfo` and a non-nil
error; otherwise it returns a nil error and a `ConnectionInfo` whose
`TenantUUID`, `TenantToken` and `Endpoints` are the response's `tenantUUID`,
`tenantToken` and `communicationEndpoints`; a response without endpoints
gives empty `Endpoints` and no error. -/
theorem GetConnectionInfo_outcome
    (execute : connectionInfoJSONResponse → connectionInfoJSONResponse × Option Error) :
    ((execute emptyConnectionInfoJSONResponse).2 ≠ none →
      (GetConnectionInfo execute).1 = emptyConnectionInfo ∧
      (GetConnectionInfo execute).2 ≠ none) ∧
    ((execute emptyConnectionInfoJSONResponse).2 = none →
      (GetConnectionInfo execute).2 = none ∧
      (GetConnectionInfo execute).1.TenantUUID
        = (execute emptyConnectionInfoJSONResponse).1.TenantUUID ∧
      (GetConnectionInfo execute).1.TenantToken
        = (execute emptyConnectionInfoJSONResponse).1.TenantToken ∧
      (GetConnectionInfo execute).1.Endpoints
        = (execute emptyConnectionInfoJSONResponse).1.CommunicationEndpoints ∧
      ((execute emptyConnectionInfoJSONResponse).1.CommunicationEndpoints = "" →
        (GetConnectionInfo execute).1.Endpoints = "")) := by
  rcases h : (execute emptyConnectionInfoJSONResponse).2 with _ | err
  · simp [GetConnectionInfo, h]
  · simp [GetConnectionInfo, h]

theorem GetConnectionInfo_outcome_witness :
    ((GetConnectionInfo (fun target => (target, some "api error"))).1 = emptyConnectionInfo ∧
      (GetConnectionInfo (fun target => (target, some "api error"))).2 ≠ none) ∧
    ((GetConnectionInfo
        (fun target => ({ target with TenantUUID := "uuid", TenantToken := "token" }, none))).2
        = none ∧
      (GetConnectionInfo
        (fun target =>
          ({ target with TenantUUID := "uuid", TenantToken := "token" }, none))).1.Endpoints
        = "") :=
  ⟨(GetConnectionInfo_outcome (fun target => (target, some "api error"))).1 (by decide),
   ((GetConnectionInfo_outcome
      (fun target => ({ target with TenantUUID := "uuid", TenantToken := "token" }, none))).2
      rfl).1,
   ((GetConnectionInfo_outcome
      (fun target => ({ target with TenantUUID := "uuid", TenantToken := "token" }, none))).2
      rfl).2.2.2.2 rfl⟩

end activegate

namespace Version

/-! ## The code-modules updater with a pinned version, and its validation -/

/-- C26: for every non-empty custom code-modules version `c` and every prior
status, `codeModulesUpdater.UseTenantRegistry` returns nil, gives the same
result whatever the vendor client would answer (the client is not consulted),
and leaves a status whose version is `c` and whose image ID, source and probe
timestamp are the zero values. -/
theorem codeModules_UseTenantRegistry_custom_version (dtClient : Client) (dk : DynaKube)
    (c : String) (hc : dk.CustomCodeModulesVersion = c) (hne : c ≠ "") :
    ((newCodeModulesUpdater dtClient).UseTenantRegistry dk).1 = none ∧
    (newCodeModulesUpdater dtClient).Target
        ((newCodeModulesUpdater dtClient).UseTenantRegistry dk).2
      = { Source := VersionSource.Unset, ImageID := "", Version := c,
          LastProbeTimestamp := none } ∧
    ((newCodeModulesUpdater dtClient).UseTenantRegistry dk).2.CodeModulesVersionStatus
      = { Source := VersionSource.Unset, ImageID := "", Version := c,
          LastProbeTimestamp := none } ∧
    (∀ other : Client,
      (newCodeModulesUpdater other).UseTenantRegistry dk
        = (newCodeModulesUpdater dtClient).UseTenantRegistry dk) := by
  subst hc
  refine ⟨?_, ?_, ?_, ?_⟩ <;>
    simp [newCodeModulesUpdater, codeModulesUpdater.UseTenantRegistry,
      codeModulesUpdater.CustomVersion, codeModulesUpdater.Target, emptyVersionStatus, hne]

theorem codeModules_UseTenantRegistry_custom_version_witness :
    ((newCodeModulesUpdater
        { GetLatestActiveGateVersion := Except.error "BOOM",
          GetLatestAgentVersion := Except.error "BOOM" }).UseTenantRegistry
      { emptyDynaKube with
        CustomCodeModulesVersion := "1.2.3.4-5"
        CodeModulesVersionStatus :=
          { Source := TenantRegistryVersionSource, ImageID := "img", Version := "prev",
            LastProbeTimestamp := some 5 } }).1 = none ∧
    (newCodeModulesUpdater
        { GetLatestActiveGateVersion := Except.error "BOOM",
          GetLatestAgentVersion := Except.error "BOOM" }).Target
      ((newCodeModulesUpdater
        { GetLatestActiveGateVersion := Except.error "BOOM",
          GetLatestAgentVersion := Except.error "BOOM" }).UseTenantRegistry
      { emptyDynaKube with
        CustomCodeModulesVersion := "1.2.3.4-5"
        CodeModulesVersionStatus :=
          { Source := TenantRegistryVersionSource, ImageID := "img", Version := "prev",
            LastProbeTimestamp := some 5 } }).2
      = { Source := VersionSource.Unset, ImageID := "", Version := "1.2.3.4-5",
          LastProbeTimestamp := none } :=
  ⟨(codeModules_UseTenantRegistry_custom_version
      { GetLatestActiveGateVersion := Except.error "BOOM",
        GetLatestAgentVersion := Except.error "BOOM" }
      { emptyDynaKube with
        CustomCodeModulesVersion := "1.2.3.4-5"
        CodeModulesVersionStatus :=
          { Source := TenantRegistryVersionSource, ImageID := "img", Version := "prev",
            LastProbeTimestamp := some 5 } }
      "1.2.3.4-5" rfl (by decide)).1,
   (codeModules_UseTenantRegistry_custom_version
      { GetLatestActiveGateVersion := Except.error "BOOM",
        GetLatestAgentVersion := Except.error "BOOM" }
      { emptyDynaKube with
        CustomCodeModulesVersion := "1.2.3.4-5"
        CodeModulesVersionStatus :=
          { Source := TenantRegistryVersionSource, ImageID := "img", Version := "prev",
            LastProbeTimestamp := some 5 } }
      "1.2.3.4-5" rfl (by decide)).2.1⟩

/-- C27: for the code-modules updater `ValidateStatus` returns nil in every
state; in particular, when no custom version is set and the vendor client
returns the empty version string, `UseTenantRegistry` succeeds, leaves an
empty `Target().Version`, and `ValidateStatus` still reports no error. -/
theorem codeModules_ValidateStatus_never_fails (dtClient : Client) (dk : DynaKube) :
    (newCodeModulesUpdater dtClient).ValidateStatus dk = none ∧
    (dk.CustomCodeModulesVersion = "" → dtClient.GetLatestAgentVersion = Except.ok "" →
      ((newCodeModulesUpdater dtClient).UseTenantRegistry dk).1 = none ∧
      ((newCodeModulesUpdater dtClient).Target
        ((newCodeModulesUpdater dtClient).UseTenantRegistry dk).2).Version = "" ∧
      (newCodeModulesUpdater dtClient).ValidateStatus
        ((newCodeModulesUpdater dtClient).UseTenantRegistry dk).2 = none) := by
  refine ⟨rfl, ?_⟩
  intro hv h
  simp [newCodeModulesUpdater, codeModulesUpdater.UseTenantRegistry,
    codeModulesUpdater.CustomVersion, codeModulesUpdater.Target,
    codeModulesUpdater.ValidateStatus, emptyVersionStatus, hv, h]

theorem codeModules_ValidateStatus_never_fails_witness :
    ((newCodeModulesUpdater
        { GetLatestActiveGateVersion := Except.ok "",
          GetLatestAgentVersion := Except.ok "" }).UseTenantRegistry emptyDynaKube).1 = none ∧
    ((newCodeModulesUpdater
        { GetLatestActiveGateVersion := Except.ok "",
          GetLatestAgentVersion := Except.ok "" }).Target
      ((newCodeModulesUpdater
        { GetLatestActiveGateVersion := Except.ok "",
          GetLatestAgentVersion := Except.ok "" }).UseTenantRegistry emptyDynaKube).2).Version
      = "" ∧
    (newCodeModulesUpdater
        { GetLatestActiveGateVersion := Except.ok "",
          GetLatestAgentVersion := Except.ok "" }).ValidateStatus
      ((newCodeModulesUpdater
        { GetLatestActiveGateVersion := Except.ok "",
          GetLatestAgentVersion := Except.ok "" }).UseTenantRegistry emptyDynaKube).2 = none :=
  (codeModules_ValidateStatus_never_fails
    { GetLatestActiveGateVersion := Except.ok "", GetLatestAgentVersion := Except.ok "" }
    emptyDynaKube).2 rfl rfl

end Version

namespace activegate

/-- C21: for every dynakube name and every outcome of the auth-token request,
`GetAuthToken` returns a nil `*AuthTokenInfo` exactly when it returns a
non-nil error; when the request succeeds the returned info is the object the
request decoded, with its `TokenID` and `Token`. -/
theorem GetAuthToken_outcome
    (execute : authTokenParams → AuthTokenInfo → AuthTokenInfo × Option Error)
    (expirationDate dynakubeName : String) :
    ((GetAuthToken execute expirationDate dynakubeName).1 = none ↔
      (GetAuthToken execute expirationDate dynakubeName).2 ≠ none) ∧
    ((execute
        { Name := dynakubeName, SeedToken := false, ActiveGateType := activeGateType,
          ExpirationDate := expirationDate } emptyAuthTokenInfo).2 = none →
      (GetAuthToken execute expirationDate dynakubeName).2 = none ∧
      (GetAuthToken execute expirationDate dynakubeName).1
        = some (execute
            { Name := dynakubeName, SeedToken := false, ActiveGateType := activeGateType,
              ExpirationDate := expirationDate } emptyAuthTokenInfo).1) ∧
    ((execute
        { Name := dynakubeName, SeedToken := false, ActiveGateType := activeGateType,
          ExpirationDate := expirationDate } emptyAuthTokenInfo).2 ≠ none →
      (GetAuthToken execute expirationDate dynakubeName).1 = none ∧
      (GetAuthToken execute expirationDate dynakubeName).2 ≠ none) := by
  rcases h : (execute
      { Name := dynakubeName, SeedToken := false, ActiveGateType := activeGateType,
        ExpirationDate := expirationDate } emptyAuthTokenInfo).2 with _ | err
  · simp [GetAuthToken, h]
  · simp [GetAuthToken, h]

theorem GetAuthToken_outcome_witness :
    ((GetAuthToken
        (fun _ target => ({ target with TokenID := "id", Token := "token" }, none))
        "2026-01-03T00:00:00Z" "dynakube").2 = none ∧
      (GetAuthToken
        (fun _ target => ({ target with TokenID := "id", Token := "token" }, none))
        "2026-01-03T00:00:00Z" "dynakube").1
        = some ((fun (_ : authTokenParams) (target : AuthTokenInfo) =>
            (({ target with TokenID := "id", Token := "token" } : AuthTokenInfo),
              (none : Option Error)))
            { Name := "dynakube", SeedToken := false, ActiveGateType := activeGateType,
              ExpirationDate := "2026-01-03T00:00:00Z" } emptyAuthTokenInfo).1) ∧
    ((GetAuthToken (fun _ target => (target, some "api error"))
        "2026-01-03T00:00:00Z" "dynakube").1 = none ∧
      (GetAuthToken (fun _ target => (target, some "api error"))
        "2026-01-03T00:00:00Z" "dynakube").2 ≠ none) :=
  ⟨(GetAuthToken_outcome
      (fun _ target => ({ target with TokenID := "id", Token := "token" }, none))
      "2026-01-03T00:00:00Z" "dynakube").2.1 rfl,
   (GetAuthToken_outcome (fun _ target => (target, some "api error"))
      "2026-01-03T00:00:00Z" "dynakube").2.2 (by decide)⟩

end activegate

namespace Version

theorem FindStatusCondition_SetStatusCondition_ne (conditions : List Condition) (c : Condition)
    (conditionType : String) (h : conditionType ≠ c.CondType) :
    FindStatusCondition (SetStatusCondition conditions c) conditionType
      = FindStatusCondition conditions conditionType := by
  have hc : ¬ c.CondType = conditionType := fun hh => h hh.symm
  induction conditions with
  | nil => simp [FindStatusCondition, SetStatusCondition, hc]
  | cons d ds ih =>
    by_cases hany : ds.any (fun x => decide (x.CondType = c.CondType)) = true
    · have hset : SetStatusCondition ds c
          = ds.map (fun x => if x.CondType = c.CondType then c else x) := by
        simp only [SetStatusCondition, hany, if_true]
      rw [hset] at ih
      by_cases hd : d.CondType = c.CondType
      · have hset' : SetStatusCondition (d :: ds) c
            = c :: ds.map (fun x => if x.CondType = c.CondType then c else x) := by
          simp only [SetStatusCondition, List.any_cons, hany, Bool.or_true, if_true,
            List.map_cons, if_pos hd]
        have hd' : ¬ d.CondType = conditionType := by rw [hd]; exact hc
        rw [hset']
        simpa [FindStatusCondition, hc, hd'] using ih
      · have hset' : SetStatusCondition (d :: ds) c
            = d :: ds.map (fun x => if x.CondType = c.CondType then c else x) := by
          simp only [SetStatusCondition, List.any_cons, hany, Bool.or_true, if_true,
            List.map_cons, if_neg hd]
        rw [hset']
        by_cases hdt : d.CondType = conditionType
        · simp [FindStatusCondition, hdt]
        · simpa [FindStatusCondition, hdt] using ih
    · have hset : SetStatusCondition ds c = ds ++ [c] := by
        simp only [SetStatusCondition, hany]
        simp
      rw [hset] at ih
      by_cases hd : d.CondType = c.CondType
      · have hset' : SetStatusCondition (d :: ds) c
            = c :: ds.map (fun x => if x.CondType = c.CondType then c else x) := by
          simp only [SetStatusCondition, List.any_cons, hd, decide_True, Bool.true_or, if_true,
            List.map_cons]
        have hmap : ds.map (fun x => if x.CondType = c.CondType then c else x) = ds := by
          have hall : ∀ x ∈ ds, ¬ x.CondType = c.CondType := by
            intro x hx hxc
            apply hany
            exact List.any_eq_true.mpr ⟨x, hx, by simp [hxc]⟩
          calc ds.map (fun x => if x.CondType = c.CondType then c else x)
              = ds.map id := List.map_congr_left (fun x hx => by simp [hall x hx])
            _ = ds := List.map_id ds
        have hd' : ¬ d.CondType = conditionType := by rw [hd]; exact hc
        rw [hset', hmap]
        simp [FindStatusCondition, hc, hd']
      · have hset' : SetStatusCondition (d :: ds) c = d :: (ds ++ [c]) := by
          simp only [SetStatusCondition, List.any_cons, hany, hd, decide_False,
            Bool.or_self]
          simp
        rw [hset']
        by_cases hdt : d.CondType = conditionType
        · simp [FindStatusCondition, hdt]
        · simpa [FindStatusCondition, hdt] using ih

end Version

namespace e2e

/-- C22: with `v` the environment value, or the default when the environment
value is empty, `setImageRefFromEnvs` sets `image.Repository` and `image.Tag`
to the parts of `v` before and after its first ":" (the whole of `v` and the
empty tag when `v` has no ":"), returns true if and only if `v` differs from
the default, sets the DynaKube's `CustomPullSecret` to the dev-registry pull
secret when it returns true and leaves the DynaKube unchanged otherwise. -/
theorem setImageRefFromEnvs_effect (Getenv : String → String) (dk : DynaKube) (image : Ref)
    (envVar defaultValue v : String)
    (hv : v = if Getenv envVar = "" then defaultValue else Getenv envVar) :
    (∀ a b : String, v = a ++ ":" ++ b → ':' ∉ a.data →
      (setImageRefFromEnvs Getenv dk image envVar defaultValue).2.2
        = { Repository := a, Tag := b }) ∧
    (':' ∉ v.data →
      (setImageRefFromEnvs Getenv dk image envVar defaultValue).2.2
        = { Repository := v, Tag := "" }) ∧
    ((setImageRefFromEnvs Getenv dk image envVar defaultValue).1 = true ↔ v ≠ defaultValue) ∧
    ((setImageRefFromEnvs Getenv dk image envVar defaultValue).1 = true →
      (setImageRefFromEnvs Getenv dk image envVar defaultValue).2.1.CustomPullSecret
        = DevRegistryPullSecretName) ∧
    ((setImageRefFromEnvs Getenv dk image envVar defaultValue).1 = false →
      (setImageRefFromEnvs Getenv dk image envVar defaultValue).2.1 = dk) := by
  have hrun : setImageRefFromEnvs Getenv dk image envVar defaultValue
      = if v ≠ defaultValue then
          (true, { dk with CustomPullSecret := DevRegistryPullSecretName },
            { image with Repository := (Cut v ':').1, Tag := (Cut v ':').2.1 })
        else (false, dk, { image with Repository := (Cut v ':').1, Tag := (Cut v ':').2.1 }) := by
    simp only [setImageRefFromEnvs, ← hv]
  have himg : (setImageRefFromEnvs Getenv dk image envVar defaultValue).2.2
      = { Repository := (Cut v ':').1, Tag := (Cut v ':').2.1 } := by
    rw [hrun]
    split_ifs <;> rfl
  refine ⟨?_, ?_, ?_, ?_, ?_⟩
  · intro a b hab ha
    have hdata : v.data = a.data ++ ':' :: b.data := by
      rw [hab]
      simp [String.data_append]
    have hcut : Cut v ':' = (a, b, true) := by
      simp only [Cut, hdata, Version.splitAtFirst_append ':' a.data b.data ha]
    rw [himg, hcut]
  · intro hno
    have hcut : Cut v ':' = (v, "", false) := by
      simp only [Cut, Version.splitAtFirst_of_not_mem ':' v.data hno]
    rw [himg, hcut]
  · rw [hrun]
    split_ifs with h <;> simp [h]
  · rw [hrun]
    split_ifs with h <;> simp
  · rw [hrun]
    split_ifs with h <;> simp

theorem setImageRefFromEnvs_effect_witness :
    (setImageRefFromEnvs (fun _ => "registry.example.com/executor:dev")
        { CustomPullSecret := "" } { Repository := "", Tag := "" }
        "E2E_DB_EXECUTOR_IMAGE" "public.ecr.aws/dynatrace/executor:1.327").2.2
      = { Repository := "registry.example.com/executor", Tag := "dev" } :=
  (setImageRefFromEnvs_effect (fun _ => "registry.example.com/executor:dev")
      { CustomPullSecret := "" } { Repository := "", Tag := "" }
      "E2E_DB_EXECUTOR_IMAGE" "public.ecr.aws/dynatrace/executor:1.327"
      "registry.example.com/executor:dev" (by decide)).1
    "registry.example.com/executor" "dev" (by decide) (by decide)

end e2e

namespace otelc

/-- C28: the collector's `Reconcile` invokes its sub-reconcilers in the order
service, endpoint, configuration, statefulset, each on the DynaKube the
previous one left; it returns the error of the first one that fails and
invokes none after it, and it returns nil if and only if all four return
nil. -/
theorem Reconcile_order {σ : Type} (r : Reconciler σ) (dk : σ) :
    (∀ e, (r.serviceReconciler dk).1 = some e →
      (Reconcile r dk).1 = some e ∧ (Reconcile r dk).2.2 = [SubReconciler.service]) ∧
    (∀ e, (r.serviceReconciler dk).1 = none →
      (r.endpointReconciler (r.serviceReconciler dk).2).1 = some e →
      (Reconcile r dk).1 = some e ∧
      (Reconcile r dk).2.2 = [SubReconciler.service, SubReconciler.endpoint]) ∧
    (∀ e, (r.serviceReconciler dk).1 = none →
      (r.endpointReconciler (r.serviceReconciler dk).2).1 = none →
      (r.configurationReconciler (r.endpointReconciler (r.serviceReconciler dk).2).2).1
        = some e →
      (Reconcile r dk).1 = some e ∧
      (Reconcile r dk).2.2
        = [SubReconciler.service, SubReconciler.endpoint, SubReconciler.configuration]) ∧
    ((r.serviceReconciler dk).1 = none →
      (r.endpointReconciler (r.serviceReconciler dk).2).1 = none →
      (r.configurationReconciler (r.endpointReconciler (r.serviceReconciler dk).2).2).1
        = none →
      (Reconcile r dk).1
        = (r.statefulsetReconciler
            (r.configurationReconciler
              (r.endpointReconciler (r.serviceReconciler dk).2).2).2).1 ∧
      (Reconcile r dk).2.2
        = [SubReconciler.service, SubReconciler.endpoint, SubReconciler.configuration,
           SubReconciler.statefulset]) ∧
    ((Reconcile r dk).1 = none ↔
      (r.serviceReconciler dk).1 = none ∧
      (r.endpointReconciler (r.serviceReconciler dk).2).1 = none ∧
      (r.configurationReconciler (r.endpointReconciler (r.serviceReconciler dk).2).2).1
        = none ∧
      (r.statefulsetReconciler
        (r.configurationReconciler
          (r.endpointReconciler (r.serviceReconciler dk).2).2).2).1 = none) := by
  unfold Reconcile
  rcases h1 : r.serviceReconciler dk with ⟨_ | e1, dk1⟩
  · rcases h2 : r.endpointReconciler dk1 with ⟨_ | e2, dk2⟩
    · rcases h3 : r.configurationReconciler dk2 with ⟨_ | e3, dk3⟩
      · rcases h4 : r.statefulsetReconciler dk3 with ⟨_ | e4, dk4⟩
        · simp [h2, h3, h4]
        · simp [h2, h3, h4]
      · simp [h2, h3]
    · simp [h2]
  · simp

theorem Reconcile_order_witness :
    (Reconcile
        ({ statefulsetReconciler := fun dk => (none, dk + 1000)
           serviceReconciler := fun dk => (none, dk + 1)
           endpointReconciler := fun dk => (some "BOOM", dk + 10)
           configurationReconciler := fun dk => (none, dk + 100) } : Reconciler Nat) 0).1
      = some "BOOM" ∧
    (Reconcile
        ({ statefulsetReconciler := fun dk => (none, dk + 1000)
           serviceReconciler := fun dk => (none, dk + 1)
           endpointReconciler := fun dk => (some "BOOM", dk + 10)
           configurationReconciler := fun dk => (none, dk + 100) } : Reconciler Nat) 0).2.2
      = [SubReconciler.service, SubReconciler.endpoint] :=
  (Reconcile_order
      ({ statefulsetReconciler := fun dk => (none, dk + 1000)
         serviceReconciler := fun dk => (none, dk + 1)
         endpointReconciler := fun dk => (some "BOOM", dk + 10)
         configurationReconciler := fun dk => (none, dk + 100) } : Reconciler Nat) 0).2.1
    "BOOM" rfl rfl

end otelc

namespace otelc.configuration

/-- C23: whenever `reconcileConfigMap` returns nil, the condition of the
configuration condition type is the "config map created or updated" one for
the new config map, whether or not the config map changed, so the
intermediate "config map outdated" condition does not remain; and when
`CreateOrUpdate` fails its error is returned and the condition of that type
is the Kubernetes-API-error condition for it. -/
theorem reconcileConfigMap_condition (env : Env) (dk : otelc.DynaKube) :
    ((reconcileConfigMap env dk).1 = none →
      ∃ newConfigMap : ConfigMap,
        (prepareConfigMap env dk).1 = Except.ok newConfigMap ∧
        Version.FindStatusCondition (reconcileConfigMap env dk).2.Conditions env.conditionType
          = some { CondType := env.conditionType, Status := "True",
                   Reason := "ConfigMapCreatedOrUpdated",
                   Message := newConfigMap.Name ++ " created or updated" }) ∧
    (∀ (newConfigMap : ConfigMap) (err : Error),
      (prepareConfigMap env dk).1 = Except.ok newConfigMap →
      env.CreateOrUpdate newConfigMap = Except.error err →
        (reconcileConfigMap env dk).1 = some err ∧
        Version.FindStatusCondition (reconcileConfigMap env dk).2.Conditions env.conditionType
          = some { CondType := env.conditionType, Status := "False", Reason := "KubeApiError",
                   Message := "A problem occurred when using the Kubernetes API: " ++ err }) ∧
    (∀ (newConfigMap : ConfigMap) (changed : Bool),
      (prepareConfigMap env dk).1 = Except.ok newConfigMap →
      env.CreateOrUpdate newConfigMap = Except.ok changed →
        (reconcileConfigMap env dk).1 = none) := by
  rcases hp : prepareConfigMap env dk with ⟨e | cm, dk1⟩
  · have hrun : reconcileConfigMap env dk = (some e, dk1) := by
      simp [reconcileConfigMap, hp]
    rw [hrun]
    simp
  · rcases hc : env.CreateOrUpdate cm with err | changed
    · have hrun : reconcileConfigMap env dk
          = (some err,
             { dk1 with
               Conditions :=
                 k8sconditions.SetKubeAPIError dk1.Conditions env.conditionType err }) := by
        simp [reconcileConfigMap, hp, hc]
      rw [hrun]
      refine ⟨by simp, ?_, ?_⟩
      · intro newConfigMap e hcm hce
        simp only [Except.ok.injEq] at hcm
        subst hcm
        rw [hc] at hce
        simp only [Except.error.injEq] at hce
        subst hce
        refine ⟨rfl, ?_⟩
        exact Version.FindStatusCondition_SetStatusCondition dk1.Conditions
          { CondType := env.conditionType, Status := "False", Reason := "KubeApiError",
            Message := "A problem occurred when using the Kubernetes API: " ++ err }
      · intro newConfigMap ch hcm hce
        simp only [Except.ok.injEq] at hcm
        subst hcm
        rw [hc] at hce
        simp at hce
    · have hrun : reconcileConfigMap env dk
          = (none,
             { dk1 with
               Conditions :=
                 k8sconditions.SetConfigMapCreatedOrUpdated
                   (if changed = true then
                     k8sconditions.SetConfigMapOutdated dk1.Conditions env.conditionType cm.Name
                   else dk1.Conditions)
                   env.conditionType cm.Name }) := by
        cases changed <;> simp [reconcileConfigMap, hp, hc]
      rw [hrun]
      refine ⟨?_, ?_, ?_⟩
      · intro _
        refine ⟨cm, rfl, ?_⟩
        exact Version.FindStatusCondition_SetStatusCondition _
          { CondType := env.conditionType, Status := "True",
            Reason := "ConfigMapCreatedOrUpdated",
            Message := cm.Name ++ " created or updated" }
      · intro newConfigMap e hcm hce
        simp only [Except.ok.injEq] at hcm
        subst hcm
        rw [hc] at hce
        simp at hce
      · intro _ _ _ _
        rfl

theorem reconcileConfigMap_condition_witness :
    (reconcileConfigMap
        { conditionType := "OTELCConfigMap"
          TelemetryCollectorConfigmapSuffix := "-otelc-config"
          getData := fun _ => Except.ok "receivers: otlp"
          Build := fun _ name data => Except.ok { Name := name, Data := data }
          CreateOrUpdate := fun _ => Except.ok true }
        { Name := "dynakube", TelemetryIngestIsEnabled := true, Conditions := [] }).1 = none :=
  (reconcileConfigMap_condition
      { conditionType := "OTELCConfigMap"
        TelemetryCollectorConfigmapSuffix := "-otelc-config"
        getData := fun _ => Except.ok "receivers: otlp"
        Build := fun _ name data => Except.ok { Name := name, Data := data }
        CreateOrUpdate := fun _ => Except.ok true }
      { Name := "dynakube", TelemetryIngestIsEnabled := true, Conditions := [] }).2.2
    { Name := "dynakube-otelc-config", Data := "receivers: otlp" } true rfl rfl

end otelc.configuration

namespace otelc.statefulset

/-- C29: for every DynaKube with telemetry ingest enabled for which the
data-ingest token cannot be found (reading the tokens fails or the token is
absent), `createOrUpdateStatefulset` returns nil, the condition of the token
condition type is the data-ingest-token-missing one, no statefulset is built,
created or updated, and the condition of the statefulset condition type is
what it was before. -/
theorem createOrUpdateStatefulset_token_missing (env : Env) (dk : otelc.DynaKube)
    (hen : dk.TelemetryIngestIsEnabled = true)
    (htoken : (∃ err, env.ReadTokens dk = Except.error err) ∨
      (∃ tokens, env.ReadTokens dk = Except.ok tokens ∧
        env.CheckForDataIngestToken tokens = false)) :
    (createOrUpdateStatefulset env dk).1 = none ∧
    Version.FindStatusCondition (createOrUpdateStatefulset env dk).2.1.Conditions
        env.TokenConditionType
      = some { CondType := env.TokenConditionType, Status := "False",
               Reason := "DataIngestTokenMissing",
               Message :=
                 "data ingest token is missing, but it's required for telemetery ingest" } ∧
    (createOrUpdateStatefulset env dk).2.2 = [] ∧
    (env.conditionType ≠ env.TokenConditionType →
      Version.FindStatusCondition (createOrUpdateStatefulset env dk).2.1.Conditions
          env.conditionType
        = Version.FindStatusCondition dk.Conditions env.conditionType) := by
  have hcheck : checkDataIngestTokenExists env dk = false := by
    rcases htoken with ⟨err, h⟩ | ⟨tokens, h, hc⟩
    · simp [checkDataIngestTokenExists, h]
    · simp [checkDataIngestTokenExists, h, hc]
  have hrun : createOrUpdateStatefulset env dk
      = (none,
         { dk with
           Conditions :=
             k8sconditions.SetDataIngestTokenMissing dk.Conditions env.TokenConditionType
               "data ingest token is missing, but it's required for telemetery ingest" },
         []) := by
    simp [createOrUpdateStatefulset, hen, hcheck]
  rw [hrun]
  refine ⟨rfl, ?_, rfl, ?_⟩
  · exact Version.FindStatusCondition_SetStatusCondition dk.Conditions
      { CondType := env.TokenConditionType, Status := "False",
        Reason := "DataIngestTokenMissing",
        Message := "data ingest token is missing, but it's required for telemetery ingest" }
  · intro htypes
    exact Version.FindStatusCondition_SetStatusCondition_ne dk.Conditions
      { CondType := env.TokenConditionType, Status := "False",
        Reason := "DataIngestTokenMissing",
        Message := "data ingest token is missing, but it's required for telemetery ingest" }
      env.conditionType htypes

theorem createOrUpdateStatefulset_token_missing_witness :
    (createOrUpdateStatefulset
        { conditionType := "OTELCStatefulSet"
          TokenConditionType := "Tokens"
          ReadTokens := fun _ => Except.ok ["apiToken"]
          CheckForDataIngestToken := fun tokens => decide ("dataIngestToken" ∈ tokens)
          buildTemplateAnnotations := fun _ => Except.ok []
          Build := fun dk annotations =>
            Except.ok { Name := dk.Name ++ "-otel-collector", Annotations := annotations }
          CreateOrUpdate := fun _ => Except.ok true }
        { Name := "dynakube", TelemetryIngestIsEnabled := true, Conditions := [] }).1 = none ∧
    (createOrUpdateStatefulset
        { conditionType := "OTELCStatefulSet"
          TokenConditionType := "Tokens"
          ReadTokens := fun _ => Except.ok ["apiToken"]
          CheckForDataIngestToken := fun tokens => decide ("dataIngestToken" ∈ tokens)
          buildTemplateAnnotations := fun _ => Except.ok []
          Build := fun dk annotations =>
            Except.ok { Name := dk.Name ++ "-otel-collector", Annotations := annotations }
          CreateOrUpdate := fun _ => Except.ok true }
        { Name := "dynakube", TelemetryIngestIsEnabled := true, Conditions := [] }).2.2 = [] :=
  ⟨(createOrUpdateStatefulset_token_missing
      { conditionType := "OTELCStatefulSet"
        TokenConditionType := "Tokens"
        ReadTokens := fun _ => Except.ok ["apiToken"]
        CheckForDataIngestToken := fun tokens => decide ("dataIngestToken" ∈ tokens)
        buildTemplateAnnotations := fun _ => Except.ok []
        Build := fun dk annotations =>
          Except.ok { Name := dk.Name ++ "-otel-collector", Annotations := annotations }
        CreateOrUpdate := fun _ => Except.ok true }
      { Name := "dynakube", TelemetryIngestIsEnabled := true, Conditions := [] }
      rfl (Or.inr ⟨["apiToken"], rfl, by decide⟩)).1,
   (createOrUpdateStatefulset_token_missing
      { conditionType := "OTELCStatefulSet"
        TokenConditionType := "Tokens"
        ReadTokens := fun _ => Except.ok ["apiToken"]
        CheckForDataIngestToken := fun tokens => decide ("dataIngestToken" ∈ tokens)
        buildTemplateAnnotations := fun _ => Except.ok []
        Build := fun dk annotations =>
          Except.ok { Name := dk.Name ++ "-otel-collector", Annotations := annotations }
        CreateOrUpdate := fun _ => Except.ok true }
      { Name := "dynakube", TelemetryIngestIsEnabled := true, Conditions := [] }
      rfl (Or.inr ⟨["apiToken"], rfl, by decide⟩)).2.2.1⟩

end otelc.statefulset

namespace otelc.service

theorem foldl_protocolPorts (protocols : List otelcgen.Protocol)
    (init : List corev1.ServicePort) :
    protocols.foldl (fun svcPorts protocol => svcPorts ++ protocolPorts protocol) init
      = init ++ protocols.foldl
          (fun svcPorts protocol => svcPorts ++ protocolPorts protocol) [] := by
  induction protocols generalizing init with
  | nil => simp
  | cons p ps ih =>
    simp only [List.foldl_cons, List.nil_append]
    rw [ih (init ++ protocolPorts p), ih (protocolPorts p), List.append_assoc]

theorem buildServicePortList_nil : buildServicePortList [] = [] := rfl

theorem buildServicePortList_cons (p : otelcgen.Protocol) (ps : List otelcgen.Protocol) :
    buildServicePortList (p :: ps) = protocolPorts p ++ buildServicePortList ps := by
  cases ps with
  | nil => simp [buildServicePortList]
  | cons q qs =>
    simp only [buildServicePortList, List.length_cons, Nat.add_one_ne_zero, if_false,
      List.foldl_cons, List.nil_append]
    rw [foldl_protocolPorts qs (protocolPorts p ++ protocolPorts q),
      foldl_protocolPorts qs (protocolPorts q), List.append_assoc]

theorem buildServicePortList_append (a b : List otelcgen.Protocol) :
    buildServicePortList (a ++ b) = buildServicePortList a ++ buildServicePortList b := by
  induction a with
  | nil => simp [buildServicePortList_nil]
  | cons p ps ih =>
    rw [List.cons_append, buildServicePortList_cons, buildServicePortList_cons, ih,
      List.append_assoc]

theorem protocolPorts_targetPort (p : otelcgen.Protocol) :
    ∀ port ∈ protocolPorts p, port.TargetPort = port.Port := by
  cases p <;> simp [protocolPorts]

/-- C24: for every list of protocols `buildServicePortList` returns the
concatenation, in input order, of the per-protocol port lists (zipkin: 9411
TCP; otlp: 4317 TCP grpc, then 4318 TCP http; jaeger: 14250 TCP grpc, 6832
UDP, 6831 UDP, 14268 TCP; statsd: 8125 UDP; any other protocol: none); every
port has its target port equal to its port; the result for `a ++ b` is the
result for `a` followed by the result for `b`, and the empty list gives no
ports. -/
theorem buildServicePortList_concat (protocols a b : List otelcgen.Protocol) :
    buildServicePortList protocols = (protocols.map protocolPorts).flatten ∧
    protocolPorts otelcgen.Protocol.ZipkinProtocol
      = [{ Name := "zipkin", Port := 9411, Protocol := corev1.Protocol.ProtocolTCP,
           AppProtocol := none, TargetPort := 9411 }] ∧
    protocolPorts otelcgen.Protocol.OtlpProtocol
      = [{ Name := "otlp-grpc", Port := 4317, Protocol := corev1.Protocol.ProtocolTCP,
           AppProtocol := some "grpc", TargetPort := 4317 },
         { Name := "otlp-http", Port := 4318, Protocol := corev1.Protocol.ProtocolTCP,
           AppProtocol := some "http", TargetPort := 4318 }] ∧
    protocolPorts otelcgen.Protocol.JaegerProtocol
      = [{ Name := "jaeger-grpc", Port := 14250, Protocol := corev1.Protocol.ProtocolTCP,
           AppProtocol := some "grpc", TargetPort := 14250 },
         { Name := "jaeger-thrift-binary", Port := 6832,
           Protocol := corev1.Protocol.ProtocolUDP, AppProtocol := none, TargetPort := 6832 },
         { Name := "jaeger-thrift-compact", Port := 6831,
           Protocol := corev1.Protocol.ProtocolUDP, AppProtocol := none, TargetPort := 6831 },
         { Name := "jaeger-thrift-http", Port := 14268,
           Protocol := corev1.Protocol.ProtocolTCP, AppProtocol := none,
           TargetPort := 14268 }] ∧
    protocolPorts otelcgen.Protocol.StatsdProtocol
      = [{ Name := "statsd", Port := 8125, Protocol := corev1.Protocol.ProtocolUDP,
           AppProtocol := none, TargetPort := 8125 }] ∧
    (∀ name : String, protocolPorts (otelcgen.Protocol.Other name) = []) ∧
    (∀ port ∈ buildServicePortList protocols, port.TargetPort = port.Port) ∧
    buildServicePortList (a ++ b) = buildServicePortList a ++ buildServicePortList b ∧
    buildServicePortList [] = [] := by
  have hflat : ∀ ps : List otelcgen.Protocol,
      buildServicePortList ps = (ps.map protocolPorts).flatten := by
    intro ps
    induction ps with
    | nil => rfl
    | cons p ps ih => rw [buildServicePortList_cons, ih]; simp
  refine ⟨hflat protocols, rfl, rfl, rfl, rfl, fun _ => rfl, ?_,
    buildServicePortList_append a b, rfl⟩
  intro port hport
  rw [hflat] at hport
  rcases List.mem_flatten.mp hport with ⟨l, hl, hmem⟩
  rcases List.mem_map.mp hl with ⟨p, _, rfl⟩
  exact protocolPorts_targetPort p port hmem

theorem buildServicePortList_concat_witness :
    ({ Name := "statsd", Port := 8125, Protocol := corev1.Protocol.ProtocolUDP,
       AppProtocol := none, TargetPort := 8125 } : corev1.ServicePort).TargetPort
      = ({ Name := "statsd", Port := 8125, Protocol := corev1.Protocol.ProtocolUDP,
           AppProtocol := none, TargetPort := 8125 } : corev1.ServicePort).Port :=
  (buildServicePortList_concat
    [otelcgen.Protocol.OtlpProtocol, otelcgen.Protocol.Other "foo",
     otelcgen.Protocol.StatsdProtocol] [] []).2.2.2.2.2.2.1
    { Name := "statsd", Port := 8125, Protocol := corev1.Protocol.ProtocolUDP,
      AppProtocol := none, TargetPort := 8125 } (by decide)

theorem portName_disjoint (p q : otelcgen.Protocol) (h : p ≠ q) :
    ∀ name ∈ (protocolPorts p).map (fun port => port.Name),
      name ∉ (protocolPorts q).map (fun port => port.Name) := by
  cases p <;> cases q <;>
    first
    | exact absurd rfl h
    | decide
    | simp [protocolPorts]

theorem portNumber_disjoint (p q : otelcgen.Protocol) (h : p ≠ q) :
    ∀ number ∈ (protocolPorts p).map (fun port => port.Port),
      number ∉ (protocolPorts q).map (fun port => port.Port) := by
  cases p <;> cases q <;>
    first
    | exact absurd rfl h
    | decide
    | simp [protocolPorts]

theorem portName_nodup (p : otelcgen.Protocol) :
    ((protocolPorts p).map (fun port => port.Name)).Nodup := by
  cases p <;> first | decide | simp [protocolPorts]

theorem portNumber_nodup (p : otelcgen.Protocol) :
    ((protocolPorts p).map (fun port => port.Port)).Nodup := by
  cases p <;> first | decide | simp [protocolPorts]

theorem mem_map_buildServicePortList {α : Type} (f : corev1.ServicePort → α)
    (ps : List otelcgen.Protocol) (x : α)
    (hx : x ∈ (buildServicePortList ps).map f) :
    ∃ q ∈ ps, x ∈ (protocolPorts q).map f := by
  induction ps with
  | nil => simp [buildServicePortList_nil] at hx
  | cons p ps ih =>
    rw [buildServicePortList_cons, List.map_append, List.mem_append] at hx
    rcases hx with h | h
    · exact ⟨p, List.mem_cons_self p ps, h⟩
    · rcases ih h with ⟨q, hq, hmem⟩
      exact ⟨q, List.mem_cons_of_mem p hq, hmem⟩

theorem nodup_map_buildServicePortList {α : Type} (f : corev1.ServicePort → α)
    (hnodup : ∀ p, ((protocolPorts p).map f).Nodup)
    (hdisj : ∀ p q, p ≠ q → ∀ x ∈ (protocolPorts p).map f, x ∉ (protocolPorts q).map f)
    (ps : List otelcgen.Protocol) (hps : ps.Nodup) :
    ((buildServicePortList ps).map f).Nodup := by
  induction ps with
  | nil => simp [buildServicePortList_nil]
  | cons p ps ih =>
    rw [List.nodup_cons] at hps
    rw [buildServicePortList_cons, List.map_append, List.nodup_append]
    refine ⟨hnodup p, ih hps.2, ?_⟩
    intro x hx1 hx2
    rcases mem_map_buildServicePortList f ps x hx2 with ⟨q, hq, hmem⟩
    have hne : p ≠ q := fun hpq => hps.1 (hpq ▸ hq)
    exact hdisj p q hne x hx1 hmem

theorem count_le_count_map_buildServicePortList {α : Type} [DecidableEq α]
    (f : corev1.ServicePort → α) (p : otelcgen.Protocol) (x : α)
    (hx : x ∈ (protocolPorts p).map f) (ps : List otelcgen.Protocol) :
    ps.count p ≤ ((buildServicePortList ps).map f).count x := by
  induction ps with
  | nil => simp
  | cons q qs ih =>
    rw [buildServicePortList_cons, List.map_append, List.count_append, List.count_cons]
    by_cases hqp : q = p
    · subst hqp
      have h1 : 1 ≤ ((protocolPorts q).map f).count x := List.count_pos_iff.mpr hx
      simp only [beq_self_eq_true, if_true]
      omega
    · have : (q == p) = false := by simpa using hqp
      simp only [this, Bool.false_eq_true, if_false]
      omega

/-- C25: for every list of protocols without repeated entries the ports
returned by `buildServicePortList` have pairwise distinct names and pairwise
distinct port numbers; for a list in which one of the four known protocols
occurs at least twice, each port name of that protocol occurs at least twice
in the result, so the names are not distinct (nothing is de-duplicated). -/
theorem buildServicePortList_distinct (protocols : List otelcgen.Protocol) :
    (protocols.Nodup →
      ((buildServicePortList protocols).map (fun port => port.Name)).Nodup ∧
      ((buildServicePortList protocols).map (fun port => port.Port)).Nodup) ∧
    (∀ p : otelcgen.Protocol, (∀ name : String, p ≠ otelcgen.Protocol.Other name) →
      2 ≤ protocols.count p →
        (∀ port ∈ protocolPorts p,
          2 ≤ ((buildServicePortList protocols).map (fun port => port.Name)).count port.Name) ∧
        ¬ ((buildServicePortList protocols).map (fun port => port.Name)).Nodup) := by
  constructor
  · intro h
    exact ⟨nodup_map_buildServicePortList _ portName_nodup portName_disjoint protocols h,
      nodup_map_buildServicePortList _ portNumber_nodup portNumber_disjoint protocols h⟩
  · intro p hknown hcount
    have hall : ∀ port ∈ protocolPorts p,
        2 ≤ ((buildServicePortList protocols).map (fun port => port.Name)).count port.Name := by
      intro port hport
      have hmem : port.Name ∈ (protocolPorts p).map (fun port => port.Name) :=
        List.mem_map.mpr ⟨port, hport, rfl⟩
      exact le_trans hcount
        (count_le_count_map_buildServicePortList _ p port.Name hmem protocols)
    refine ⟨hall, ?_⟩
    have hex : ∃ port, port ∈ protocolPorts p := by
      cases p with
      | Other name => exact absurd rfl (hknown name)
      | ZipkinProtocol => exact ⟨_, List.mem_cons_self _ _⟩
      | OtlpProtocol => exact ⟨_, List.mem_cons_self _ _⟩
      | JaegerProtocol => exact ⟨_, List.mem_cons_self _ _⟩
      | StatsdProtocol => exact ⟨_, List.mem_cons_self _ _⟩
    rcases hex with ⟨port, hport⟩
    intro hnodup
    have hle := List.nodup_iff_count_le_one.mp hnodup port.Name
    have := hall port hport
    omega

theorem buildServicePortList_distinct_witness :
    ((buildServicePortList
        [otelcgen.Protocol.ZipkinProtocol, otelcgen.Protocol.OtlpProtocol,
         otelcgen.Protocol.JaegerProtocol, otelcgen.Protocol.StatsdProtocol]).map
      (fun port => port.Name)).Nodup ∧
    ¬ ((buildServicePortList
        [otelcgen.Protocol.ZipkinProtocol, otelcgen.Protocol.OtlpProtocol,
         otelcgen.Protocol.ZipkinProtocol]).map (fun port => port.Name)).Nodup :=
  ⟨((buildServicePortList_distinct
      [otelcgen.Protocol.ZipkinProtocol, otelcgen.Protocol.OtlpProtocol,
       otelcgen.Protocol.JaegerProtocol, otelcgen.Protocol.StatsdProtocol]).1
      (by decide)).1,
   ((buildServicePortList_distinct
      [otelcgen.Protocol.ZipkinProtocol, otelcgen.Protocol.OtlpProtocol,
       otelcgen.Protocol.ZipkinProtocol]).2
      otelcgen.Protocol.ZipkinProtocol (fun _ h => by cases h) (by decide)).2⟩

end otelc.service
